import Mathlib

set_option maxRecDepth 100000

/-!
Shallow embedding of the AI-assistance router (`src/server/routes/ai.js`).

Texts are modelled as `List Char` (named `Str`); the completion service is an
oracle parameter `Str → Option CompletionResult`; the persistent store is an
explicit `AppState` threaded through each handler, which also returns the list
of prompts sent to the completion service so that "no completion call" claims
can be stated.  JS regular-expression matching is embedded by executable
matchers that realise the leftmost-match backtracking semantics of the exact
patterns appearing in the source.
-/

abbrev Str := List Char

def str (s : String) : Str := s.data

/-- Whitespace recognised by the JS `String.trim` (ASCII part). -/
def isJsWs (c : Char) : Bool :=
  c = ' ' || c = '\t' || c = '\n' || c = '\r' || c = '\x0b' || c = '\x0c'

/-- JS `line.trim()`: strip whitespace from both ends. -/
def trimStr (l : Str) : Str := ((l.dropWhile isJsWs).reverse.dropWhile isJsWs).reverse

/-- JS `content.split('\x5cn')`: the list of lines of a text. -/
def linesOf : Str → List Str
  | [] => [[]]
  | c :: cs =>
    match linesOf cs with
    | [] => [[]]
    | l :: ls => if c = '\n' then [] :: l :: ls else (c :: l) :: ls

/-- Glue two line lists as concatenation of the underlying texts does. -/
def joinLines : List Str → List Str → List Str
  | [], ys => ys
  | [x], ys =>
    match ys with
    | [] => [x]
    | y :: ys2 => (x ++ y) :: ys2
  | x :: x2 :: xs, ys => x :: joinLines (x2 :: xs) ys

/-- JS `hay.includes(needle)`: contiguous (case-sensitive) substring test. -/
def containsSub (needle : Str) : Str → Bool
  | [] => needle.isPrefixOf []
  | c :: t => needle.isPrefixOf (c :: t) || containsSub needle t

/-- ASCII lower-casing, realising the `/i` regex flag on the texts involved. -/
def lcChar (c : Char) : Char :=
  if 'A' ≤ c ∧ c ≤ 'Z' then Char.ofNat (c.toNat + 32) else c

def lcStr (l : Str) : Str := l.map lcChar

/-- The accumulator loop shared by the line extractors of the source
(`for (const line of lines) if (cond) out.push(line.trim())`). -/
def collectLoop (p : Str → Bool) : List Str → List Str → List Str
  | [], acc => acc
  | line :: rest, acc => collectLoop p rest (if p line then acc ++ [trimStr line] else acc)

/-- Line condition of `extractSuggestions`. -/
def suggestionLine (line : Str) : Bool :=
  containsSub (str "suggestion") line || containsSub (str "improve") line ||
    containsSub (str "consider") line

/-- `extractSuggestions` from the source: matching lines, trimmed, `slice(0, 5)`. -/
def extractSuggestions (content : Str) : List Str :=
  (collectLoop suggestionLine (linesOf content) []).take 5

/-- Line condition of `extractApproach`. -/
def approachLine (line : Str) : Bool :=
  containsSub (str "approach") line || containsSub (str "strategy") line ||
    containsSub (str "method") line

/-- `extractApproach` from the source: matching lines, trimmed, `slice(0, 3)`. -/
def extractApproach (content : Str) : List Str :=
  (collectLoop approachLine (linesOf content) []).take 3

/-- Line condition of `extractFixes`. -/
def fixLine (line : Str) : Bool :=
  containsSub (str "fix") line || containsSub (str "change") line ||
    containsSub (str "replace") line

/-- `extractFixes` from the source: matching lines, trimmed, `slice(0, 5)`. -/
def extractFixes (content : Str) : List Str :=
  (collectLoop fixLine (linesOf content) []).take 5

/-- JS `line.match(/^\x5cd+\x5c./)` is truthy: leading digit run then a period. -/
def startsNumDot (line : Str) : Bool :=
  let ds := line.takeWhile Char.isDigit
  !ds.isEmpty && (str ".").isPrefixOf (line.drop ds.length)

/-- Line condition of `extractRoadmapPhases`. -/
def phaseLine (line : Str) : Bool :=
  startsNumDot line || containsSub (str "Phase") line || containsSub (str "Week") line

/-- `extractRoadmapPhases` from the source: matching lines, trimmed, `slice(0, 10)`. -/
def extractRoadmapPhases (content : Str) : List Str :=
  (collectLoop phaseLine (linesOf content) []).take 10

/-- Offset of the first close-paren in the list, if any. -/
def seekClose : Str → Option Nat
  | [] => none
  | c :: rest => if c = ')' then some 0 else (seekClose rest).map (· + 1)

/-- Match `[^)]+\x5c)` at the head: at least one non-close-paren character and a
closing paren; returns the number of characters consumed. -/
def tryTail : Str → Option Nat
  | [] => none
  | c :: rest => if c = ')' then none else (seekClose rest).map (fun i => i + 2)

/-- Match `O\x5c([^)]+\x5c)` (case-insensitive on the letter) at the head;
returns the number of characters consumed. -/
def hereO : Str → Option Nat
  | o :: p :: after =>
    if p = '(' && (o = 'O' || o = 'o') then (tryTail after).map (fun t => t + 2) else none
  | _ => none

/-- The ECMAScript LineTerminator characters, which `.` never matches
(without the `s` flag): LF, CR, LINE SEPARATOR, PARAGRAPH SEPARATOR. -/
def isLineTerm (c : Char) : Bool :=
  c = '\n' || c = '\r' || c = Char.ofNat 0x2028 || c = Char.ofNat 0x2029

/-- Lazy scan of `.*?O\x5c([^)]+\x5c)`: the dot never crosses a line
terminator; returns the total number of characters consumed from the scan
start. -/
def findO : Str → Option Nat
  | [] => none
  | c :: rest =>
    match hereO (c :: rest) with
    | some n => some n
    | none => if isLineTerm c then none else (findO rest).map (· + 1)

/-- Case-insensitive literal-keyword test at the head of a text. -/
def ciPrefixOf (kw l : Str) : Bool := kw.isPrefixOf (lcStr l)

/-- JS `content.match(/kw.*?O\x5c([^)]+\x5c)/i)`: leftmost match of the
keyword-then-complexity pattern, returning the exact matched substring. -/
def firstMatch (kw : Str) : Str → Option Str
  | [] => none
  | c :: rest =>
    if ciPrefixOf kw (c :: rest) then
      match findO ((c :: rest).drop kw.length) with
      | some n => some ((c :: rest).take (kw.length + n))
      | none => firstMatch kw rest
    else firstMatch kw rest

/-- Result shape of `extractComplexity` (`{}`, `{time}`, `{space}` or both). -/
structure Complexity where
  time : Option Str := none
  space : Option Str := none
deriving DecidableEq

/-- `extractComplexity` from the source. -/
def extractComplexity (content : Str) : Complexity :=
  if containsSub (str "O(") content then
    { time := firstMatch (str "time") content, space := firstMatch (str "space") content }
  else {}

/-- Match of `(\x5cd+)\x5cs*(week|month|day)s?` at the head of the list
(case-insensitive); returns the matched length. -/
def durAt (l : Str) : Option Nat :=
  let ds := l.takeWhile Char.isDigit
  if ds.isEmpty then none
  else
    let rest := l.drop ds.length
    let ws := rest.takeWhile isJsWs
    let rest2 := rest.drop ws.length
    let unit : Option Nat :=
      if (str "week").isPrefixOf (lcStr rest2) then some 4
      else if (str "month").isPrefixOf (lcStr rest2) then some 5
      else if (str "day").isPrefixOf (lcStr rest2) then some 3
      else none
    match unit with
    | none => none
    | some u =>
      let rest3 := rest2.drop u
      let plural := if (str "s").isPrefixOf (lcStr rest3) then 1 else 0
      some (ds.length + ws.length + u + plural)

/-- Leftmost match of the duration pattern. -/
def durationScan : Str → Option Str
  | [] => none
  | c :: rest =>
    match durAt (c :: rest) with
    | some n => some ((c :: rest).take n)
    | none => durationScan rest

/-- `extractDuration` from the source: first duration phrase or `"Variable"`. -/
def extractDuration (content : Str) : Str :=
  match durationScan content with
  | some m => m
  | none => str "Variable"

/-- JS `description.replace(/<[^>]*>/g, \x27\x27)`: drop every maximal
tag-shaped span; a `<` with no later `>` is kept. -/
def stripHtml : Str → Str
  | [] => []
  | c :: rest =>
    if c = '<' then
      let run := rest.takeWhile (fun d => d ≠ '>')
      if run.length < rest.length then stripHtml (rest.drop (run.length + 1))
      else c :: stripHtml rest
    else c :: stripHtml rest
termination_by l => l.length
decreasing_by
  · simp only [List.length_drop, List.length_cons]
    omega
  · simp only [List.length_cons]
    omega
  · simp only [List.length_cons]
    omega

/-- The character of the last decimal digit of a number. -/
def digitOf (n : Nat) : Char := Char.ofNat (48 + n % 10)

/-- Decimal digits of a number, as interpolated into a template string. -/
def natToChars (n : Nat) : Str :=
  if n < 10 then [digitOf n]
  else natToChars (n / 10) ++ [digitOf n]
decreasing_by
  exact Nat.div_lt_self (by omega) (by omega)

/-- JS `xs.join(', ')`. -/
def joinComma : List Str → Str
  | [] => []
  | [x] => x
  | x :: y :: rest => x ++ str ", " ++ joinComma (y :: rest)

/-- A stored Problem document (the fields the router reads). -/
structure Problem where
  id : Nat
  title : Str
  description : Str
  difficulty : Str
deriving DecidableEq

/-- A stored User document (the fields the roadmap endpoint reads). -/
structure UserRec where
  id : Nat
  totalSolved : Nat
  rating : Nat
deriving DecidableEq

inductive AiType where
  | code_review
  | roadmap
  | hint
  | debug_help
deriving DecidableEq

/-- Feedback payload attached to an interaction. -/
structure FeedbackRec where
  helpful : Bool
  rating : Nat
  comment : Str
deriving DecidableEq

/-- `context` bag of an AIInteraction (type-shaped; unused fields stay `none`). -/
structure Context where
  problem : Option Nat := none
  code : Option Str := none
  language : Option Str := none
  error : Option Str := none
  userLevel : Option Str := none
  goals : Option (List Str) := none
deriving DecidableEq

/-- A persisted AIInteraction document. -/
structure Interaction where
  id : Nat
  user : Nat
  type : AiType
  context : Context
  query : Str
  response : Str
  tokens_used : Nat
  response_time : Nat
  feedback : Option FeedbackRec := none
  createdAt : Nat
deriving DecidableEq

/-- The persistent store plus id/clock generators. -/
structure AppState where
  problems : List Problem
  users : List UserRec
  interactions : List Interaction
  nextId : Nat
  now : Nat
deriving DecidableEq

/-- Result of a successful completion call (`callOpenAI` return value):
content, optional `usage.total_tokens`, caller-measured latency. -/
structure CompletionResult where
  content : Str
  usage : Option Nat
  response_time : Nat
deriving DecidableEq

/-- The completion service as an oracle; `none` models a failed remote call. -/
abbrev Oracle := Str → Option CompletionResult

inductive RespBody where
  | message (m : Str)
  | codeReview (review : Str) (suggestions : List Str) (complexity : Complexity)
  | roadmap (roadmap : Str) (phases : List Str) (estimatedDuration : Str)
  | hint (hint : Str) (approach : List Str)
  | debugHelp (explanation : Str) (fixes : List Str)
  | history (interactions : List Interaction) (totalPages currentPage total : Nat)
deriving DecidableEq

structure Resp where
  status : Nat
  body : RespBody
deriving DecidableEq

def findProblem (st : AppState) (pid : Nat) : Option Problem :=
  st.problems.find? (fun p => p.id == pid)

def findUser (st : AppState) (uid : Nat) : Option UserRec :=
  st.users.find? (fun u => u.id == uid)

def findInteraction (st : AppState) (iid : Nat) : Option Interaction :=
  st.interactions.find? (fun i => i.id == iid)

/-- Append a freshly built interaction document to the store. -/
def saveInteraction (st : AppState) (i : Interaction) : AppState :=
  { st with interactions := st.interactions ++ [i], nextId := st.nextId + 1 }

/-- Prompt template of `POST /code-review` (lines 28-46 of the source). -/
def buildCodeReviewPrompt (language title description code : Str) : Str :=
  str "\nAs a coding mentor, review this " ++ language ++
    str " code for the problem \"" ++ title ++
    str "\":\n\nProblem Description: " ++ stripHtml description ++
    str "\n\nCode:\n```" ++ language ++ str "\n" ++ code ++
    str "\n```\n\nPlease provide:\n1. Code quality assessment (readability, structure, best practices)\n2. Time and space complexity analysis\n3. Potential bugs or edge cases missed\n4. Suggestions for improvement\n5. Alternative approaches if applicable\n\nKeep the response concise but comprehensive.\n    "

/-- Prompt template of `POST /roadmap` (lines 90-109 of the source). -/
def buildRoadmapPrompt (currentLevel : Str) (goals : List Str) (timeCommitment : Str)
    (preferredTopics : List Str) (totalSolved rating : Nat) : Str :=
  str "\nCreate a personalized coding learning roadmap for a " ++ currentLevel ++
    str " level programmer.\n\nUser Profile:\n- Current Level: " ++ currentLevel ++
    str "\n- Goals: " ++ joinComma goals ++
    str "\n- Time Commitment: " ++ timeCommitment ++
    str " hours per week\n- Preferred Topics: " ++ joinComma preferredTopics ++
    str "\n- Problems Solved: " ++ natToChars totalSolved ++
    str "\n- Current Rating: " ++ natToChars rating ++
    str "\n\nPlease provide:\n1. A structured learning path with milestones\n2. Recommended topics and concepts to study\n3. Practice problem categories and difficulty progression\n4. Estimated timeline for each phase\n5. Resources and tips for effective learning\n\nFormat as a detailed roadmap with clear phases and actionable steps.\n    "

/-- Prompt template of `POST /hint` (lines 154-170 of the source); the current
attempt block is omitted when `currentCode` is absent or empty (JS falsy). -/
def buildHintPrompt (title description difficulty : Str) (currentCode : Option Str)
    (language : Str) : Str :=
  str "\nProvide a helpful hint for solving this coding problem. Don\x27t give away the complete solution, but guide the user in the right direction.\n\nProblem: " ++ title ++
    str "\nDescription: " ++ stripHtml description ++
    str "\nDifficulty: " ++ difficulty ++ str "\n\n" ++
    (match currentCode with
      | some c =>
        if c.isEmpty then []
        else str "Current attempt:\n```" ++ language ++ str "\n" ++ c ++ str "\n```"
      | none => []) ++
    str "\n\nProvide:\n1. A conceptual hint about the approach\n2. Key insights or patterns to recognize\n3. Suggested next steps\n4. Common pitfalls to avoid\n\nKeep it encouraging and educational without spoiling the solution.\n    "

/-- Prompt template of `POST /debug` (lines 212-232 of the source); the problem
title and description lines are empty when the Problem is absent. -/
def buildDebugPrompt (language : Str) (problem : Option Problem) (code err : Str) : Str :=
  str "\nHelp debug this " ++ language ++
    str " code that\x27s encountering an error.\n\n" ++
    (match problem with | some p => str "Problem: " ++ p.title | none => []) ++ str "\n" ++
    (match problem with | some p => str "Description: " ++ stripHtml p.description | none => []) ++
    str "\n\nCode:\n```" ++ language ++ str "\n" ++ code ++
    str "\n```\n\nError: " ++ err ++
    str "\n\nPlease provide:\n1. Explanation of what\x27s causing the error\n2. Step-by-step debugging approach\n3. Specific fixes needed\n4. Prevention tips for similar issues\n\nBe clear and educational in your explanation.\n    "

structure CodeReviewReq where
  code : Str
  language : Str
  problemId : Nat

structure RoadmapReq where
  goals : List Str
  currentLevel : Str
  timeCommitment : Str
  preferredTopics : List Str

structure HintReq where
  problemId : Nat
  currentCode : Option Str
  language : Str

structure DebugReq where
  code : Str
  language : Str
  error : Str
  problemId : Option Nat

/-- `POST /code-review`.  Returns the response, the new store state, and the
prompts sent to the completion service. -/
def codeReviewHandler (apiKey : Bool) (oracle : Oracle) (callerId : Nat)
    (req : CodeReviewReq) (st : AppState) : Resp × AppState × List Str :=
  if !apiKey then (⟨500, .message (str "AI service not configured")⟩, st, [])
  else
    match findProblem st req.problemId with
    | none => (⟨404, .message (str "Problem not found")⟩, st, [])
    | some problem =>
      let prompt := buildCodeReviewPrompt req.language problem.title problem.description req.code
      match oracle prompt with
      | none => (⟨500, .message (str "Failed to analyze code")⟩, st, [prompt])
      | some r =>
        let inter : Interaction :=
          { id := st.nextId, user := callerId, type := .code_review,
            context := { problem := some req.problemId, code := some req.code,
                         language := some req.language },
            query := str "Code review request", response := r.content,
            tokens_used := r.usage.getD 0, response_time := r.response_time,
            createdAt := st.now }
        (⟨200, .codeReview r.content (extractSuggestions r.content) (extractComplexity r.content)⟩,
          saveInteraction st inter, [prompt])

/-- `POST /roadmap`.  A missing user record makes the profile reads throw,
which the catch-all turns into the generic 500 of this endpoint. -/
def roadmapHandler (apiKey : Bool) (oracle : Oracle) (callerId : Nat)
    (req : RoadmapReq) (st : AppState) : Resp × AppState × List Str :=
  if !apiKey then (⟨500, .message (str "AI service not configured")⟩, st, [])
  else
    match findUser st callerId with
    | none => (⟨500, .message (str "Failed to generate roadmap")⟩, st, [])
    | some user =>
      let prompt := buildRoadmapPrompt req.currentLevel req.goals req.timeCommitment
        req.preferredTopics user.totalSolved user.rating
      match oracle prompt with
      | none => (⟨500, .message (str "Failed to generate roadmap")⟩, st, [prompt])
      | some r =>
        let inter : Interaction :=
          { id := st.nextId, user := callerId, type := .roadmap,
            context := { userLevel := some req.currentLevel, goals := some req.goals },
            query := str "Personalized roadmap request", response := r.content,
            tokens_used := r.usage.getD 0, response_time := r.response_time,
            createdAt := st.now }
        (⟨200, .roadmap r.content (extractRoadmapPhases r.content) (extractDuration r.content)⟩,
          saveInteraction st inter, [prompt])

/-- `POST /hint`. -/
def hintHandler (apiKey : Bool) (oracle : Oracle) (callerId : Nat)
    (req : HintReq) (st : AppState) : Resp × AppState × List Str :=
  if !apiKey then (⟨500, .message (str "AI service not configured")⟩, st, [])
  else
    match findProblem st req.problemId with
    | none => (⟨404, .message (str "Problem not found")⟩, st, [])
    | some problem =>
      let prompt := buildHintPrompt problem.title problem.description problem.difficulty
        req.currentCode req.language
      match oracle prompt with
      | none => (⟨500, .message (str "Failed to generate hint")⟩, st, [prompt])
      | some r =>
        let inter : Interaction :=
          { id := st.nextId, user := callerId, type := .hint,
            context := { problem := some req.problemId, code := req.currentCode,
                         language := some req.language },
            query := str "Hint request", response := r.content,
            tokens_used := r.usage.getD 0, response_time := r.response_time,
            createdAt := st.now }
        (⟨200, .hint r.content (extractApproach r.content)⟩, saveInteraction st inter, [prompt])

/-- `POST /debug`. -/
def debugHandler (apiKey : Bool) (oracle : Oracle) (callerId : Nat)
    (req : DebugReq) (st : AppState) : Resp × AppState × List Str :=
  if !apiKey then (⟨500, .message (str "AI service not configured")⟩, st, [])
  else
    let problem := req.problemId.bind (findProblem st)
    let prompt := buildDebugPrompt req.language problem req.code req.error
    match oracle prompt with
    | none => (⟨500, .message (str "Failed to provide debug help")⟩, st, [prompt])
    | some r =>
      let inter : Interaction :=
        { id := st.nextId, user := callerId, type := .debug_help,
          context := { problem := req.problemId, code := some req.code,
                       language := some req.language, error := some req.error },
          query := str "Debug help request", response := r.content,
          tokens_used := r.usage.getD 0, response_time := r.response_time,
          createdAt := st.now }
      (⟨200, .debugHelp r.content (extractFixes r.content)⟩, saveInteraction st inter, [prompt])

/-- History sort key: `sort({ createdAt: -1 })` (newest first). -/
def newerFirst (a b : Interaction) : Prop := b.createdAt ≤ a.createdAt

instance : DecidableRel newerFirst := fun a b => Nat.decLe b.createdAt a.createdAt

instance : IsTotal Interaction newerFirst :=
  ⟨fun a b => Nat.le_total b.createdAt a.createdAt⟩

instance : IsTrans Interaction newerFirst :=
  ⟨fun _ _ _ h1 h2 => Nat.le_trans h2 h1⟩

def typeMatches (tf : Option AiType) (i : Interaction) : Bool :=
  match tf with
  | none => true
  | some t => i.type == t

/-- The query filter of `GET /history`: owned by the caller, optional type. -/
def historyQuery (callerId : Nat) (tf : Option AiType) (st : AppState) : List Interaction :=
  st.interactions.filter (fun i => i.user == callerId && typeMatches tf i)

/-- `GET /history`: filter, sort newest-first, skip `(page-1)*limit`, take
`limit`; returns the page plus `ceil(total/limit)`, the page and the total. -/
def historyHandler (callerId : Nat) (page limit : Nat) (tf : Option AiType)
    (st : AppState) : Resp :=
  let q := historyQuery callerId tf st
  let sorted := List.insertionSort newerFirst q
  let pageItems := (sorted.drop ((page - 1) * limit)).take limit
  ⟨200, .history pageItems ((q.length + limit - 1) / limit) page q.length⟩

/-- Overwrite the feedback field of an interaction, all other fields kept. -/
def setFeedback (h : Bool) (r : Nat) (c : Str) (i : Interaction) : Interaction :=
  { i with feedback := some ⟨h, r, c⟩ }

/-- `POST /feedback/:interactionId`: 404 when the interaction is missing, 403
when the caller does not own it, otherwise overwrite feedback and persist. -/
def feedbackHandler (callerId iid : Nat) (helpful : Bool) (rating : Nat) (comment : Str)
    (st : AppState) : Resp × AppState :=
  match findInteraction st iid with
  | none => (⟨404, .message (str "Interaction not found")⟩, st)
  | some inter =>
    if inter.user ≠ callerId then (⟨403, .message (str "Not authorized")⟩, st)
    else
      (⟨200, .message (str "Feedback saved successfully")⟩,
        { st with interactions :=
            st.interactions.map (fun i => if i.id == iid then setFeedback helpful rating comment i else i) })

/-! ### Specification-side notions used to state the claims -/

/-- No newline in a text (single-line field). -/
def nlFree (x : Str) : Prop := '\n' ∉ x

/-- Case-insensitive containment, as the spec words the extractor rules. -/
def containsCI (needle hay : Str) : Bool := containsSub needle (lcStr hay)

/-- Modelled from the spec (line extractor rules): matching lines in text
order, trimmed, capped.  Compared with the extractors of the source. -/
def specLineExtract (p : Str → Bool) (cap : Nat) (content : Str) : List Str :=
  (((linesOf content).filter p).map trimStr).take cap

/-- Number of lines beginning with a given marker. -/
def countPre (m : Str) (lines : List Str) : Nat := lines.countP (fun l => m.isPrefixOf l)

/-- A (symbolic) text starts with none of the given markers. -/
def avoids (x : Str) (ms : List Str) : Prop := ∀ m ∈ ms, m.isPrefixOf x = false

/-- The markers occur, in order, as prefixes of successive lines. -/
def sectionsInOrder : List Str → List Str → Prop
  | _, [] => True
  | lines, m :: ms => ∃ pre l post, lines = pre ++ l :: post ∧ m <+: l ∧ sectionsInOrder post ms

/-- Shape of a `kw.*?O\x5c([^)]+\x5c)` match (case-insensitive keyword,
line-terminator-free gap, nonempty close-paren-free body). -/
def IsPat (kw m : Str) : Prop :=
  ∃ k g o b, m = k ++ g ++ o :: '(' :: (b ++ [')']) ∧ lcStr k = kw ∧
    (∀ c ∈ g, isLineTerm c = false) ∧ (o = 'O' ∨ o = 'o') ∧ b ≠ [] ∧ ')' ∉ b

/-- The pattern matches somewhere starting at position `p` of `s`. -/
def MatchFrom (kw s : Str) (p : Nat) : Prop :=
  ∃ m rest, s.drop p = m ++ rest ∧ IsPat kw m

/-- Correctness of an optional leftmost-match result: `none` means no match
anywhere; `some m` means `m` matches at a position before which no position
matches, and `m` is the shortest match at that position. -/
def FirstPatMatch (kw content : Str) : Option Str → Prop
  | none => ∀ p, ¬ MatchFrom kw content p
  | some m => ∃ p, (∀ q, q < p → ¬ MatchFrom kw content q) ∧
      (∃ rest, content.drop p = m ++ rest) ∧ IsPat kw m ∧
      (∀ m2 rest2, content.drop p = m2 ++ rest2 → IsPat kw m2 → m.length ≤ m2.length)

/-- Section markers of the code-review prompt (fixed order of the template). -/
def crMarkers : List Str :=
  [str "As a coding mentor, review this ", str "Problem Description: ", str "Code:",
   str "Please provide:", str "1. Code quality assessment",
   str "2. Time and space complexity analysis", str "3. Potential bugs or edge cases missed",
   str "4. Suggestions for improvement", str "5. Alternative approaches if applicable"]

/-- Section markers of the roadmap prompt. -/
def rmMarkers : List Str :=
  [str "Create a personalized coding learning roadmap", str "User Profile:",
   str "- Current Level: ", str "- Goals: ", str "- Time Commitment: ",
   str "- Preferred Topics: ", str "- Problems Solved: ", str "- Current Rating: ",
   str "Please provide:", str "1. A structured learning path",
   str "2. Recommended topics and concepts to study",
   str "3. Practice problem categories and difficulty progression",
   str "4. Estimated timeline for each phase",
   str "5. Resources and tips for effective learning"]

/-- Section markers of the hint prompt (with the current-attempt block). -/
def hintMarkers : List Str :=
  [str "Provide a helpful hint", str "Problem: ", str "Description: ", str "Difficulty: ",
   str "Current attempt:", str "Provide:", str "1. A conceptual hint about the approach",
   str "2. Key insights or patterns to recognize", str "3. Suggested next steps",
   str "4. Common pitfalls to avoid"]

/-- Section markers of the hint prompt without the current-attempt block. -/
def hintMarkersNoCode : List Str :=
  [str "Provide a helpful hint", str "Problem: ", str "Description: ", str "Difficulty: ",
   str "Provide:", str "1. A conceptual hint about the approach",
   str "2. Key insights or patterns to recognize", str "3. Suggested next steps",
   str "4. Common pitfalls to avoid"]

/-- Section markers of the debug prompt (with the problem section). -/
def dbgMarkers : List Str :=
  [str "Help debug this ", str "Problem: ", str "Description: ", str "Code:", str "Error: ",
   str "Please provide:", str "1. Explanation of what",
   str "2. Step-by-step debugging approach", str "3. Specific fixes needed",
   str "4. Prevention tips for similar issues"]

/-- Section markers of the debug prompt without the problem section. -/
def dbgMarkersNoProblem : List Str :=
  [str "Help debug this ", str "Code:", str "Error: ",
   str "Please provide:", str "1. Explanation of what",
   str "2. Step-by-step debugging approach", str "3. Specific fixes needed",
   str "4. Prevention tips for similar issues"]

/-- The lines of the code-review prompt, for single-line fields. -/
def crLines (lang title cdesc code : Str) : List Str :=
  [[],
   str "As a coding mentor, review this " ++ lang ++ str " code for the problem \"" ++
     title ++ str "\":",
   [], str "Problem Description: " ++ cdesc, [], str "Code:", str "```" ++ lang, code,
   str "```", [], str "Please provide:",
   str "1. Code quality assessment (readability, structure, best practices)",
   str "2. Time and space complexity analysis", str "3. Potential bugs or edge cases missed",
   str "4. Suggestions for improvement", str "5. Alternative approaches if applicable", [],
   str "Keep the response concise but comprehensive.", str "    "]

/-- The lines of the roadmap prompt, for single-line fields. -/
def rmLines (lvl goalsJ tc topicsJ solvedS ratingS : Str) : List Str :=
  [[],
   str "Create a personalized coding learning roadmap for a " ++ lvl ++
     str " level programmer.",
   [], str "User Profile:", str "- Current Level: " ++ lvl, str "- Goals: " ++ goalsJ,
   str "- Time Commitment: " ++ tc ++ str " hours per week",
   str "- Preferred Topics: " ++ topicsJ,
   str "- Problems Solved: " ++ solvedS,
   str "- Current Rating: " ++ ratingS, [], str "Please provide:",
   str "1. A structured learning path with milestones",
   str "2. Recommended topics and concepts to study",
   str "3. Practice problem categories and difficulty progression",
   str "4. Estimated timeline for each phase",
   str "5. Resources and tips for effective learning", [],
   str "Format as a detailed roadmap with clear phases and actionable steps.", str "    "]

/-- The lines of the hint prompt when a nonempty current attempt is supplied. -/
def hintLinesSome (title cdesc diff c lang : Str) : List Str :=
  [[],
   str "Provide a helpful hint for solving this coding problem. Don\x27t give away the complete solution, but guide the user in the right direction.",
   [], str "Problem: " ++ title, str "Description: " ++ cdesc, str "Difficulty: " ++ diff, [],
   str "Current attempt:", str "```" ++ lang, c, str "```", [], str "Provide:",
   str "1. A conceptual hint about the approach", str "2. Key insights or patterns to recognize",
   str "3. Suggested next steps", str "4. Common pitfalls to avoid", [],
   str "Keep it encouraging and educational without spoiling the solution.", str "    "]

/-- The lines of the hint prompt when no current attempt is supplied. -/
def hintLinesNone (title cdesc diff : Str) : List Str :=
  [[],
   str "Provide a helpful hint for solving this coding problem. Don\x27t give away the complete solution, but guide the user in the right direction.",
   [], str "Problem: " ++ title, str "Description: " ++ cdesc, str "Difficulty: " ++ diff,
   [], [], [], str "Provide:",
   str "1. A conceptual hint about the approach", str "2. Key insights or patterns to recognize",
   str "3. Suggested next steps", str "4. Common pitfalls to avoid", [],
   str "Keep it encouraging and educational without spoiling the solution.", str "    "]

/-- The lines of the debug prompt when the Problem is present. -/
def dbgLinesSome (lang title cdesc code err : Str) : List Str :=
  [[], str "Help debug this " ++ lang ++ str " code that\x27s encountering an error.",
   [], str "Problem: " ++ title, str "Description: " ++ cdesc, [], str "Code:",
   str "```" ++ lang, code, str "```", [], str "Error: " ++ err, [], str "Please provide:",
   str "1. Explanation of what\x27s causing the error", str "2. Step-by-step debugging approach",
   str "3. Specific fixes needed", str "4. Prevention tips for similar issues", [],
   str "Be clear and educational in your explanation.", str "    "]

/-- The lines of the debug prompt when the Problem is absent. -/
def dbgLinesNone (lang code err : Str) : List Str :=
  [[], str "Help debug this " ++ lang ++ str " code that\x27s encountering an error.",
   [], [], [], [], str "Code:", str "```" ++ lang, code, str "```", [], str "Error: " ++ err,
   [], str "Please provide:", str "1. Explanation of what\x27s causing the error",
   str "2. Step-by-step debugging approach", str "3. Specific fixes needed",
   str "4. Prevention tips for similar issues", [],
   str "Be clear and educational in your explanation.", str "    "]

/-! ### Text utility lemmas -/

lemma isPrefixOf_true_iff (n h : Str) : n.isPrefixOf h = true ↔ ∃ t, h = n ++ t := by
  constructor
  · intro hp
    obtain ⟨t, ht⟩ := List.isPrefixOf_iff_prefix.mp hp
    exact ⟨t, ht.symm⟩
  · rintro ⟨t, rfl⟩
    exact List.isPrefixOf_iff_prefix.mpr ⟨t, rfl⟩

lemma containsSub_true_iff (n h : Str) :
    containsSub n h = true ↔ ∃ pre post, h = pre ++ n ++ post := by
  induction h with
  | nil =>
    simp only [containsSub, isPrefixOf_true_iff]
    constructor
    · rintro ⟨t, ht⟩
      exact ⟨[], t, ht⟩
    · rintro ⟨pre, post, hps⟩
      have hpre : pre = [] := by
        cases pre with
        | nil => rfl
        | cons a b => simp at hps
      subst hpre
      exact ⟨post, by simpa using hps⟩
  | cons c t ih =>
    simp only [containsSub, Bool.or_eq_true, isPrefixOf_true_iff, ih]
    constructor
    · rintro (⟨s, hs⟩ | ⟨pre, post, hps⟩)
      · exact ⟨[], s, by simpa using hs⟩
      · exact ⟨c :: pre, post, by simp [hps]⟩
    · rintro ⟨pre, post, hps⟩
      cases pre with
      | nil => exact Or.inl ⟨post, by simpa using hps⟩
      | cons a pre2 =>
        simp only [List.cons_append, List.cons.injEq] at hps
        exact Or.inr ⟨pre2, post, hps.2⟩

lemma collectLoop_eq (p : Str → Bool) (ls acc : List Str) :
    collectLoop p ls acc = acc ++ (ls.filter p).map trimStr := by
  induction ls generalizing acc with
  | nil => simp [collectLoop]
  | cons l rest ih =>
    by_cases h : p l
    · simp [collectLoop, h, ih]
    · simp [collectLoop, h, ih]

lemma drop_length_takeWhile (q : Char → Bool) (l : Str) :
    l.drop (l.takeWhile q).length = l.dropWhile q := by
  induction l with
  | nil => rfl
  | cons c t ih =>
    by_cases h : q c
    · simp [List.takeWhile_cons, List.dropWhile_cons, h, ih]
    · simp [List.takeWhile_cons, List.dropWhile_cons, h]

lemma takeWhile_append_all (q : Char → Bool) (ds x : Str) (h : ∀ c ∈ ds, q c = true) :
    (ds ++ x).takeWhile q = ds ++ x.takeWhile q := by
  induction ds with
  | nil => rfl
  | cons c t ih =>
    have hc : q c = true := h c (by simp)
    simp only [List.cons_append, List.takeWhile_cons, hc, if_true]
    rw [ih (fun d hd => h d (by simp [hd]))]

lemma startsNumDot_true_iff (l : Str) :
    startsNumDot l = true ↔
      ∃ ds rest, l = ds ++ '.' :: rest ∧ ds ≠ [] ∧ ∀ c ∈ ds, c.isDigit = true := by
  constructor
  · intro h
    unfold startsNumDot at h
    simp only [Bool.and_eq_true, Bool.not_eq_true', isPrefixOf_true_iff] at h
    obtain ⟨hne, t, ht⟩ := h
    rw [drop_length_takeWhile] at ht
    refine ⟨l.takeWhile Char.isDigit, t, ?_, ?_, fun c hc => List.mem_takeWhile_imp hc⟩
    · conv_lhs => rw [← List.takeWhile_append_dropWhile (p := Char.isDigit) (l := l)]
      rw [ht]
      simp [str]
    · intro hnil
      rw [hnil] at hne
      simp at hne
  · rintro ⟨ds, rest, rfl, hne, hdig⟩
    unfold startsNumDot
    simp only [Bool.and_eq_true, Bool.not_eq_true', isPrefixOf_true_iff]
    have htw : ((ds ++ '.' :: rest).takeWhile Char.isDigit) = ds := by
      rw [takeWhile_append_all Char.isDigit ds _ hdig]
      have hdot : (('.' :: rest).takeWhile Char.isDigit) = [] := by
        simp [List.takeWhile_cons]
      simp [hdot]
    rw [htw]
    refine ⟨?_, rest, ?_⟩
    · cases ds with
      | nil => exact absurd rfl hne
      | cons d ds2 => simp
    · rw [List.drop_left]
      simp [str]

/-! ### C1 and C8: line-keyword extractors -/

/-- C1 counterexample: the extractors match case-sensitively, so a line whose
lower-casing contains "consider" but which contains none of the lowercase
keywords is not returned, refuting the case-insensitive reading. -/
theorem C1_counterexample :
    extractSuggestions (str "Consider using a hash map") = [] ∧
    containsCI (str "consider") (str "Consider using a hash map") = true := by decide

/-- C1 (amended: keywords are matched case-sensitively): each extractor
returns the lines of the text (split on newlines, in text order) containing
its keywords as literal substrings, trimmed, capped at 5 / 3 / 5. -/
theorem C1_line_extractors (content : Str) :
    extractSuggestions content = specLineExtract suggestionLine 5 content ∧
    extractApproach content = specLineExtract approachLine 3 content ∧
    extractFixes content = specLineExtract fixLine 5 content ∧
    (∀ line, suggestionLine line = true ↔
      ((∃ a b, line = a ++ str "suggestion" ++ b) ∨ (∃ a b, line = a ++ str "improve" ++ b) ∨
        (∃ a b, line = a ++ str "consider" ++ b))) ∧
    (∀ line, approachLine line = true ↔
      ((∃ a b, line = a ++ str "approach" ++ b) ∨ (∃ a b, line = a ++ str "strategy" ++ b) ∨
        (∃ a b, line = a ++ str "method" ++ b))) ∧
    (∀ line, fixLine line = true ↔
      ((∃ a b, line = a ++ str "fix" ++ b) ∨ (∃ a b, line = a ++ str "change" ++ b) ∨
        (∃ a b, line = a ++ str "replace" ++ b))) := by
  refine ⟨?_, ?_, ?_, ?_, ?_, ?_⟩
  · simp [extractSuggestions, specLineExtract, collectLoop_eq]
  · simp [extractApproach, specLineExtract, collectLoop_eq]
  · simp [extractFixes, specLineExtract, collectLoop_eq]
  · intro line
    simp only [suggestionLine, Bool.or_eq_true, containsSub_true_iff]
    exact or_assoc
  · intro line
    simp only [approachLine, Bool.or_eq_true, containsSub_true_iff]
    exact or_assoc
  · intro line
    simp only [fixLine, Bool.or_eq_true, containsSub_true_iff]
    exact or_assoc

/-- C8 counterexample: matching lines are pushed through `trim()`, so a line
with leading whitespace is not collected verbatim. -/
theorem C8_counterexample :
    extractRoadmapPhases (str "  Phase 1: Arrays") = [str "Phase 1: Arrays"] ∧
    str "Phase 1: Arrays" ≠ str "  Phase 1: Arrays" := by decide

/-- C8 (amended: matching lines are collected trimmed, not verbatim): the
roadmap-phase extractor returns the lines starting with a digit run plus a
period, or containing "Phase" or "Week" case-sensitively, trimmed, in text
order, capped at 10. -/
theorem C8_roadmap_phases (content : Str) :
    extractRoadmapPhases content = specLineExtract phaseLine 10 content ∧
    (∀ line, phaseLine line = true ↔
      ((∃ ds rest, line = ds ++ '.' :: rest ∧ ds ≠ [] ∧ ∀ c ∈ ds, c.isDigit = true) ∨
        (∃ a b, line = a ++ str "Phase" ++ b) ∨ (∃ a b, line = a ++ str "Week" ++ b))) := by
  constructor
  · simp [extractRoadmapPhases, specLineExtract, collectLoop_eq]
  · intro line
    simp only [phaseLine, Bool.or_eq_true, containsSub_true_iff, startsNumDot_true_iff]
    exact or_assoc

/-! ### C3, C6, C10: failure paths of the generation endpoints -/

/-- C3: a code-review or hint request (with the service configured) whose
problemId has no Problem fails with 404 "Problem not found", sends no prompt
to the completion service and leaves the store unchanged. -/
theorem C3_missing_problem (oracle : Oracle) (callerId : Nat) (reqc : CodeReviewReq)
    (reqh : HintReq) (st : AppState)
    (h1 : findProblem st reqc.problemId = none)
    (h2 : findProblem st reqh.problemId = none) :
    codeReviewHandler true oracle callerId reqc st =
      (⟨404, .message (str "Problem not found")⟩, st, []) ∧
    hintHandler true oracle callerId reqh st =
      (⟨404, .message (str "Problem not found")⟩, st, []) := by
  constructor
  · simp [codeReviewHandler, h1]
  · simp [hintHandler, h2]

/-- C3 witness: concrete run on a store with no problems. -/
theorem C3_witness :
    codeReviewHandler true (fun _ => none) 7 ⟨str "x", str "js", 3⟩ ⟨[], [], [], 0, 0⟩ =
      (⟨404, RespBody.message (str "Problem not found")⟩, ⟨[], [], [], 0, 0⟩, []) ∧
    hintHandler true (fun _ => none) 7 ⟨3, none, str "js"⟩ ⟨[], [], [], 0, 0⟩ =
      (⟨404, RespBody.message (str "Problem not found")⟩, ⟨[], [], [], 0, 0⟩, []) :=
  C3_missing_problem (fun _ => none) 7 ⟨str "x", str "js", 3⟩ ⟨3, none, str "js"⟩
    ⟨[], [], [], 0, 0⟩ (by decide) (by decide)

/-- C6: with the completion-service credential absent, each of the four
generation endpoints returns 500 "AI service not configured" before doing any
entity lookup, completion call or persistence write. -/
theorem C6_unconfigured (oracle : Oracle) (callerId : Nat) (reqc : CodeReviewReq)
    (reqr : RoadmapReq) (reqh : HintReq) (reqd : DebugReq) (st : AppState) :
    codeReviewHandler false oracle callerId reqc st =
      (⟨500, .message (str "AI service not configured")⟩, st, []) ∧
    roadmapHandler false oracle callerId reqr st =
      (⟨500, .message (str "AI service not configured")⟩, st, []) ∧
    hintHandler false oracle callerId reqh st =
      (⟨500, .message (str "AI service not configured")⟩, st, []) ∧
    debugHandler false oracle callerId reqd st =
      (⟨500, .message (str "AI service not configured")⟩, st, []) := by
  refine ⟨?_, ?_, ?_, ?_⟩ <;>
    simp [codeReviewHandler, roadmapHandler, hintHandler, debugHandler]

/-- C10: a roadmap request by an authenticated caller with no user record
fails with the generic 500 of the endpoint (the profile reads throw), not
with a 404, and performs no completion call and no persistence write. -/
theorem C10_roadmap_missing_user (oracle : Oracle) (callerId : Nat) (req : RoadmapReq)
    (st : AppState) (hu : findUser st callerId = none) :
    roadmapHandler true oracle callerId req st =
      (⟨500, .message (str "Failed to generate roadmap")⟩, st, []) ∧
    (roadmapHandler true oracle callerId req st).1.status = 500 ∧
    (roadmapHandler true oracle callerId req st).1.status ≠ 404 := by
  have h : roadmapHandler true oracle callerId req st =
      (⟨500, .message (str "Failed to generate roadmap")⟩, st, []) := by
    simp [roadmapHandler, hu]
  refine ⟨h, ?_, ?_⟩ <;> rw [h] <;> simp

/-- C10 witness: concrete run on a store with no users. -/
theorem C10_witness :
    roadmapHandler true (fun _ => none) 7 ⟨[str "a"], str "beginner", str "5", []⟩
        ⟨[], [], [], 0, 0⟩ =
      (⟨500, RespBody.message (str "Failed to generate roadmap")⟩, ⟨[], [], [], 0, 0⟩, []) :=
  (C10_roadmap_missing_user (fun _ => none) 7 ⟨[str "a"], str "beginner", str "5", []⟩
    ⟨[], [], [], 0, 0⟩ (by decide)).1

/-! ### C4: feedback attachment -/

lemma find?_pred (p : Interaction → Bool) (l : List Interaction) (a : Interaction)
    (h : l.find? p = some a) : p a = true := List.find?_some h

lemma find?_map_pres (f : Interaction → Interaction) (p : Interaction → Bool)
    (hf : ∀ i, p (f i) = p i) (l : List Interaction) :
    (l.map f).find? p = (l.find? p).map f := by
  induction l with
  | nil => rfl
  | cons a t ih =>
    by_cases h : p a
    · rw [List.map_cons, List.find?_cons_of_pos _ (by rw [hf]; exact h),
        List.find?_cons_of_pos _ h, Option.map_some']
    · rw [List.map_cons, List.find?_cons_of_neg _ (by rw [hf]; simpa using h),
        List.find?_cons_of_neg _ (by simpa using h), ih]

/-- C4: feedback on a missing interaction is 404; feedback by a non-owner is
403 and mutates nothing; feedback by the owner overwrites exactly the
feedback field of the matching record and persists, and a repeated
submission overwrites again (last write wins). -/
theorem C4_attachFeedback (st : AppState) (callerId iid : Nat) (hp : Bool) (rt : Nat)
    (cm : Str) :
    (findInteraction st iid = none →
      feedbackHandler callerId iid hp rt cm st =
        (⟨404, .message (str "Interaction not found")⟩, st)) ∧
    (∀ inter, findInteraction st iid = some inter → inter.user ≠ callerId →
      feedbackHandler callerId iid hp rt cm st =
        (⟨403, .message (str "Not authorized")⟩, st)) ∧
    (∀ inter, findInteraction st iid = some inter → inter.user = callerId →
      (feedbackHandler callerId iid hp rt cm st).1 =
        ⟨200, .message (str "Feedback saved successfully")⟩ ∧
      (feedbackHandler callerId iid hp rt cm st).2.interactions =
        st.interactions.map (fun i => if i.id == iid then setFeedback hp rt cm i else i) ∧
      (∀ i, (setFeedback hp rt cm i).id = i.id ∧ (setFeedback hp rt cm i).user = i.user ∧
        (setFeedback hp rt cm i).type = i.type ∧
        (setFeedback hp rt cm i).context = i.context ∧
        (setFeedback hp rt cm i).query = i.query ∧
        (setFeedback hp rt cm i).response = i.response ∧
        (setFeedback hp rt cm i).tokens_used = i.tokens_used ∧
        (setFeedback hp rt cm i).response_time = i.response_time ∧
        (setFeedback hp rt cm i).createdAt = i.createdAt ∧
        (setFeedback hp rt cm i).feedback = some ⟨hp, rt, cm⟩) ∧
      (∀ hp2 rt2 cm2,
        (feedbackHandler callerId iid hp2 rt2 cm2
            (feedbackHandler callerId iid hp rt cm st).2).2.interactions =
          st.interactions.map
            (fun i => if i.id == iid then setFeedback hp2 rt2 cm2 i else i))) := by
  refine ⟨?_, ?_, ?_⟩
  · intro hnone
    simp [feedbackHandler, hnone]
  · intro inter hsome hown
    simp [feedbackHandler, hsome, hown]
  · intro inter hsome hown
    have hstep : feedbackHandler callerId iid hp rt cm st =
        (⟨200, .message (str "Feedback saved successfully")⟩,
          { st with interactions :=
              st.interactions.map (fun i => if i.id == iid then setFeedback hp rt cm i else i) }) := by
      simp [feedbackHandler, hsome, hown]
    refine ⟨by rw [hstep], by rw [hstep], fun i => ⟨rfl, rfl, rfl, rfl, rfl, rfl, rfl, rfl, rfl, rfl⟩, ?_⟩
    intro hp2 rt2 cm2
    rw [hstep]
    have hfind2 : findInteraction
        { st with interactions :=
            st.interactions.map (fun i => if i.id == iid then setFeedback hp rt cm i else i) } iid =
        some (setFeedback hp rt cm inter) := by
      have hid : inter.id = iid := by
        have hs2 := hsome
        unfold findInteraction at hs2
        have h3 := find?_pred (fun i => i.id == iid) st.interactions inter hs2
        simpa using h3
      unfold findInteraction at hsome ⊢
      rw [find?_map_pres _ _ ?_ st.interactions, hsome]
      · simp [hid]
      · intro i
        by_cases h : i.id == iid
        · simp [h, setFeedback]
        · simp [h, setFeedback]
    have hown2 : (setFeedback hp rt cm inter).user = callerId := hown
    simp only [feedbackHandler, hfind2, hown2, ne_eq, not_true_eq_false, if_false]
    rw [List.map_map]
    refine List.map_congr_left ?_
    intro i _
    obtain ⟨a1, a2, a3, a4, a5, a6, a7, a8, a9, a10⟩ := i
    by_cases h : a1 == iid
    · simp [Function.comp, setFeedback, h]
    · simp [Function.comp, setFeedback, h]

/-- C4 witness: a concrete owner updates feedback twice; the record ends with
the last submission. -/
theorem C4_witness :
    (feedbackHandler 7 5 false 1 (str "meh")
        (feedbackHandler 7 5 true 4 (str "good")
          ⟨[], [], [⟨5, 7, .hint, ⟨none, none, none, none, none, none⟩, [], [], 0, 0, none, 3⟩],
            9, 9⟩).2).2.interactions =
      [⟨5, 7, .hint, ⟨none, none, none, none, none, none⟩, [], [], 0, 0,
        some ⟨false, 1, str "meh"⟩, 3⟩] := by
  have h := ((C4_attachFeedback
      ⟨[], [], [⟨5, 7, .hint, ⟨none, none, none, none, none, none⟩, [], [], 0, 0, none, 3⟩], 9, 9⟩
      7 5 true 4 (str "good")).2.2
      ⟨5, 7, .hint, ⟨none, none, none, none, none, none⟩, [], [], 0, 0, none, 3⟩
      (by decide) rfl).2.2.2 false 1 (str "meh")
  rw [h]
  decide

/-! ### C7: one interaction persisted per successful generation -/

/-- C7: on the success path of each of the four generation endpoints exactly
one Interaction is appended to the store, and its `tokens_used` is the
reported total token count, defaulting to 0 when usage metadata is absent. -/
theorem C7_persist_one (oracle : Oracle) (callerId : Nat) (st : AppState)
    (reqc : CodeReviewReq) (reqr : RoadmapReq) (reqh : HintReq) (reqd : DebugReq)
    (pc ph : Problem) (u : UserRec) (rc rr rh rd : CompletionResult)
    (hpc : findProblem st reqc.problemId = some pc)
    (hph : findProblem st reqh.problemId = some ph)
    (hu : findUser st callerId = some u)
    (hoc : oracle (buildCodeReviewPrompt reqc.language pc.title pc.description reqc.code) =
      some rc)
    (hor : oracle (buildRoadmapPrompt reqr.currentLevel reqr.goals reqr.timeCommitment
      reqr.preferredTopics u.totalSolved u.rating) = some rr)
    (hoh : oracle (buildHintPrompt ph.title ph.description ph.difficulty reqh.currentCode
      reqh.language) = some rh)
    (hod : oracle (buildDebugPrompt reqd.language (reqd.problemId.bind (findProblem st))
      reqd.code reqd.error) = some rd) :
    (∃ i, (codeReviewHandler true oracle callerId reqc st).1.status = 200 ∧
      (codeReviewHandler true oracle callerId reqc st).2.1.interactions =
        st.interactions ++ [i] ∧
      i.tokens_used = rc.usage.getD 0 ∧ (rc.usage = none → i.tokens_used = 0) ∧
      (∀ t, rc.usage = some t → i.tokens_used = t) ∧ i.user = callerId ∧
      i.response = rc.content) ∧
    (∃ i, (roadmapHandler true oracle callerId reqr st).1.status = 200 ∧
      (roadmapHandler true oracle callerId reqr st).2.1.interactions =
        st.interactions ++ [i] ∧
      i.tokens_used = rr.usage.getD 0 ∧ (rr.usage = none → i.tokens_used = 0) ∧
      (∀ t, rr.usage = some t → i.tokens_used = t) ∧ i.user = callerId ∧
      i.response = rr.content) ∧
    (∃ i, (hintHandler true oracle callerId reqh st).1.status = 200 ∧
      (hintHandler true oracle callerId reqh st).2.1.interactions =
        st.interactions ++ [i] ∧
      i.tokens_used = rh.usage.getD 0 ∧ (rh.usage = none → i.tokens_used = 0) ∧
      (∀ t, rh.usage = some t → i.tokens_used = t) ∧ i.user = callerId ∧
      i.response = rh.content) ∧
    (∃ i, (debugHandler true oracle callerId reqd st).1.status = 200 ∧
      (debugHandler true oracle callerId reqd st).2.1.interactions =
        st.interactions ++ [i] ∧
      i.tokens_used = rd.usage.getD 0 ∧ (rd.usage = none → i.tokens_used = 0) ∧
      (∀ t, rd.usage = some t → i.tokens_used = t) ∧ i.user = callerId ∧
      i.response = rd.content) := by
  refine ⟨?_, ?_, ?_, ?_⟩
  · refine
      ⟨{ id := st.nextId, user := callerId, type := .code_review,
         context := { problem := some reqc.problemId, code := some reqc.code, language := some reqc.language },
         query := str "Code review request", response := rc.content,
         tokens_used := rc.usage.getD 0, response_time := rc.response_time,
         createdAt := st.now }, ?_, ?_, rfl, ?_, ?_, rfl, rfl⟩
    · simp [codeReviewHandler, hpc, hoc]
    · simp [codeReviewHandler, hpc, hoc, saveInteraction]
    · intro h
      simp [h]
    · intro t ht
      simp [ht]
  · refine
      ⟨{ id := st.nextId, user := callerId, type := .roadmap,
         context := { userLevel := some reqr.currentLevel, goals := some reqr.goals },
         query := str "Personalized roadmap request", response := rr.content,
         tokens_used := rr.usage.getD 0, response_time := rr.response_time,
         createdAt := st.now }, ?_, ?_, rfl, ?_, ?_, rfl, rfl⟩
    · simp [roadmapHandler, hu, hor]
    · simp [roadmapHandler, hu, hor, saveInteraction]
    · intro h
      simp [h]
    · intro t ht
      simp [ht]
  · refine
      ⟨{ id := st.nextId, user := callerId, type := .hint,
         context := { problem := some reqh.problemId, code := reqh.currentCode, language := some reqh.language },
         query := str "Hint request", response := rh.content,
         tokens_used := rh.usage.getD 0, response_time := rh.response_time,
         createdAt := st.now }, ?_, ?_, rfl, ?_, ?_, rfl, rfl⟩
    · simp [hintHandler, hph, hoh]
    · simp [hintHandler, hph, hoh, saveInteraction]
    · intro h
      simp [h]
    · intro t ht
      simp [ht]
  · refine
      ⟨{ id := st.nextId, user := callerId, type := .debug_help,
         context := { problem := reqd.problemId, code := some reqd.code, language := some reqd.language, error := some reqd.error },
         query := str "Debug help request", response := rd.content,
         tokens_used := rd.usage.getD 0, response_time := rd.response_time,
         createdAt := st.now }, ?_, ?_, rfl, ?_, ?_, rfl, rfl⟩
    · simp [debugHandler, hod]
    · simp [debugHandler, hod, saveInteraction]
    · intro h
      simp [h]
    · intro t ht
      simp [ht]

/-- C7 witness: a concrete successful code review on an empty history with a
completion result carrying no usage metadata persists one interaction with
`tokens_used = 0`. -/
theorem C7_witness :
    ∃ i, (codeReviewHandler true (fun _ => some ⟨str "ok", none, 5⟩) 7
        ⟨str "code", str "js", 3⟩
        ⟨[⟨3, str "Two Sum", str "desc", str "Easy"⟩], [⟨7, 10, 1200⟩], [], 0, 0⟩).1.status =
        200 ∧
      (codeReviewHandler true (fun _ => some ⟨str "ok", none, 5⟩) 7
        ⟨str "code", str "js", 3⟩
        ⟨[⟨3, str "Two Sum", str "desc", str "Easy"⟩], [⟨7, 10, 1200⟩], [], 0, 0⟩).2.1.interactions =
        [] ++ [i] ∧
      i.tokens_used = 0 := by
  obtain ⟨⟨i, h1, h2, h3, h4, h5, h6, h7⟩, _, _, _⟩ :=
    C7_persist_one (fun _ => some ⟨str "ok", none, 5⟩) 7
      ⟨[⟨3, str "Two Sum", str "desc", str "Easy"⟩], [⟨7, 10, 1200⟩], [], 0, 0⟩
      ⟨str "code", str "js", 3⟩ ⟨[str "a"], str "beginner", str "5", [str "dp"]⟩
      ⟨3, some (str "x"), str "js"⟩ ⟨str "c", str "js", str "err", some 3⟩
      ⟨3, str "Two Sum", str "desc", str "Easy"⟩ ⟨3, str "Two Sum", str "desc", str "Easy"⟩
      ⟨7, 10, 1200⟩ ⟨str "ok", none, 5⟩ ⟨str "ok", none, 5⟩ ⟨str "ok", none, 5⟩
      ⟨str "ok", none, 5⟩
      (by decide) (by decide) (by decide) rfl rfl rfl rfl
  exact ⟨i, h1, h2, h4 rfl⟩

/-! ### C5: history listing -/

/-- C5: `GET /history` returns only interactions of the requesting user,
optionally filtered by type, newest-first, sliced to the requested page, with
the total count and `totalPages = ceil(total / limit)`; with 45 matching
interactions and limit 20 there are 3 pages and page 3 has exactly 5 records. -/
theorem C5_listHistory (callerId page limit : Nat) (tf : Option AiType) (st : AppState)
    (hl : 0 < limit) :
    ∃ items,
      historyHandler callerId page limit tf st =
        ⟨200, .history items (((historyQuery callerId tf st).length + limit - 1) / limit)
          page (historyQuery callerId tf st).length⟩ ∧
      (∀ i ∈ items, i.user = callerId) ∧
      (∀ t, tf = some t → ∀ i ∈ items, i.type = t) ∧
      List.Sorted newerFirst items ∧
      items.length = min limit ((historyQuery callerId tf st).length - (page - 1) * limit) ∧
      ((historyQuery callerId tf st).length = 45 ∧ limit = 20 →
        ((historyQuery callerId tf st).length + limit - 1) / limit = 3 ∧
        (page = 3 → items.length = 5)) := by
  have hsub : (((List.insertionSort newerFirst (historyQuery callerId tf st)).drop
      ((page - 1) * limit)).take limit).Sublist
      (List.insertionSort newerFirst (historyQuery callerId tf st)) :=
    (List.take_sublist _ _).trans (List.drop_sublist _ _)
  have hmemq : ∀ i, i ∈ (((List.insertionSort newerFirst (historyQuery callerId tf st)).drop
      ((page - 1) * limit)).take limit) → i ∈ historyQuery callerId tf st := by
    intro i hi
    exact ((List.perm_insertionSort newerFirst _).mem_iff).mp (hsub.mem hi)
  have hlen : ((((List.insertionSort newerFirst (historyQuery callerId tf st)).drop
      ((page - 1) * limit)).take limit)).length =
      min limit ((historyQuery callerId tf st).length - (page - 1) * limit) := by
    simp [(List.perm_insertionSort newerFirst (historyQuery callerId tf st)).length_eq]
  refine ⟨((List.insertionSort newerFirst (historyQuery callerId tf st)).drop
      ((page - 1) * limit)).take limit, rfl, ?_, ?_, ?_, hlen, ?_⟩
  · intro i hi
    have hq := hmemq i hi
    unfold historyQuery at hq
    have := (List.mem_filter.mp hq).2
    simp only [Bool.and_eq_true, beq_iff_eq] at this
    exact this.1
  · intro t htf i hi
    have hq := hmemq i hi
    unfold historyQuery at hq
    have := (List.mem_filter.mp hq).2
    rw [htf] at this
    simp only [Bool.and_eq_true, typeMatches, beq_iff_eq] at this
    exact this.2
  · exact List.Pairwise.sublist hsub (List.sorted_insertionSort newerFirst _)
  · rintro ⟨h45, h20⟩
    constructor
    · rw [h45, h20]
    · intro hp
      rw [hlen, h45, h20, hp]
      decide

/-- C5 witness: concrete history request over a store with two owned
interactions returns one page of both, newest-first. -/
theorem C5_witness :
    ∃ items,
      historyHandler 1 1 20 none
        ⟨[], [], [⟨10, 1, .hint, ⟨none, none, none, none, none, none⟩, [], [], 0, 0, none, 5⟩,
          ⟨11, 1, .roadmap, ⟨none, none, none, none, none, none⟩, [], [], 0, 0, none, 9⟩],
          0, 0⟩ =
        ⟨200, .history items 1 1 2⟩ ∧
      items.length = 2 ∧ List.Sorted newerFirst items := by
  have hq : historyQuery 1 none
      ⟨[], [], [⟨10, 1, .hint, ⟨none, none, none, none, none, none⟩, [], [], 0, 0, none, 5⟩,
        ⟨11, 1, .roadmap, ⟨none, none, none, none, none, none⟩, [], [], 0, 0, none, 9⟩],
        0, 0⟩ =
      [⟨10, 1, .hint, ⟨none, none, none, none, none, none⟩, [], [], 0, 0, none, 5⟩,
        ⟨11, 1, .roadmap, ⟨none, none, none, none, none, none⟩, [], [], 0, 0, none, 9⟩] := by
    decide
  obtain ⟨items, h1, _, _, h4, h5, _⟩ :=
    C5_listHistory 1 1 20 none
      ⟨[], [], [⟨10, 1, .hint, ⟨none, none, none, none, none, none⟩, [], [], 0, 0, none, 5⟩,
        ⟨11, 1, .roadmap, ⟨none, none, none, none, none, none⟩, [], [], 0, 0, none, 9⟩],
        0, 0⟩ (by norm_num)
  rw [hq] at h1 h5
  refine ⟨items, ?_, ?_, h4⟩
  · rw [h1]
    norm_num
  · rw [h5]
    decide

/-! ### C2: complexity extraction -/

lemma seekClose_none (l : Str) (h : seekClose l = none) : ')' ∉ l := by
  induction l with
  | nil => simp
  | cons c rest ih =>
    by_cases hc : c = ')'
    · simp [seekClose, hc] at h
    · simp [seekClose, hc] at h
      intro hm
      rcases List.mem_cons.mp hm with h1 | h2
      · exact hc h1.symm
      · exact ih h h2

lemma seekClose_some (l : Str) (i : Nat) (h : seekClose l = some i) :
    ∃ b rest, l = b ++ ')' :: rest ∧ ')' ∉ b ∧ i = b.length ∧
      ∀ b2 rest2, l = b2 ++ ')' :: rest2 → b.length ≤ b2.length := by
  induction l generalizing i with
  | nil => simp [seekClose] at h
  | cons c rest ih =>
    by_cases hc : c = ')'
    · subst hc
      simp [seekClose] at h
      refine ⟨[], rest, rfl, by simp, by simp [← h], ?_⟩
      intro b2 rest2 _
      simp
    · simp [seekClose, hc, Option.map_eq_some'] at h
      obtain ⟨j, hj, hi⟩ := h
      obtain ⟨b, r2, hr, hnb, hjl, hmin⟩ := ih j hj
      refine ⟨c :: b, r2, by simp [hr], ?_, by simp [← hi, hjl], ?_⟩
      · intro hm
        rcases List.mem_cons.mp hm with h1 | h2
        · exact hc h1.symm
        · exact hnb h2
      · intro b2 rest2 he
        cases b2 with
        | nil =>
          simp at he
          exact absurd he.1 hc
        | cons d b2tl =>
          simp at he
          have := hmin b2tl rest2 he.2
          simp
          omega

lemma tryTail_none (l : Str) (h : tryTail l = none) :
    ∀ b rest, l = b ++ ')' :: rest → b ≠ [] → ')' ∉ b → False := by
  intro b rest hl hb hnb
  cases b with
  | nil => exact hb rfl
  | cons d btl =>
    subst hl
    have hd : d ≠ ')' := by
      intro hdd
      exact hnb (by rw [hdd]; exact List.mem_cons_self _ _)
    simp [tryTail, hd] at h
    exact seekClose_none _ h (by simp)

lemma tryTail_some (l : Str) (t : Nat) (h : tryTail l = some t) :
    ∃ b rest, l = b ++ ')' :: rest ∧ b ≠ [] ∧ ')' ∉ b ∧ t = b.length + 1 ∧
      ∀ b2 rest2, l = b2 ++ ')' :: rest2 → b2 ≠ [] → b.length ≤ b2.length := by
  cases l with
  | nil => simp [tryTail] at h
  | cons c rest =>
    by_cases hc : c = ')'
    · simp [tryTail, hc] at h
    · simp [tryTail, hc, Option.map_eq_some'] at h
      obtain ⟨i, hi, ht⟩ := h
      obtain ⟨b, r2, hr, hnb, hil, hmin⟩ := seekClose_some rest i hi
      refine ⟨c :: b, r2, by simp [hr], by simp, ?_, ?_, ?_⟩
      · intro hm
        rcases List.mem_cons.mp hm with h1 | h2
        · exact hc h1.symm
        · exact hnb h2
      · simp [← ht, hil]
      · intro b2 rest2 he hb2
        cases b2 with
        | nil => exact absurd rfl hb2
        | cons d b2tl =>
          simp at he
          have := hmin b2tl rest2 he.2
          simp
          omega

lemma hereO_none (l : Str) (h : hereO l = none) :
    ∀ o b rest, l = o :: '(' :: (b ++ ')' :: rest) → (o = 'O' ∨ o = 'o') → b ≠ [] →
      ')' ∉ b → False := by
  intro o b rest hl ho hb hnb
  subst hl
  rcases ho with h1 | h1 <;>
    simp [hereO, h1] at h <;>
    exact tryTail_none _ h b rest rfl hb hnb

lemma hereO_some (l : Str) (n : Nat) (h : hereO l = some n) :
    ∃ o b rest, l = o :: '(' :: (b ++ ')' :: rest) ∧ (o = 'O' ∨ o = 'o') ∧ b ≠ [] ∧
      ')' ∉ b ∧ n = b.length + 3 ∧
      ∀ b2 rest2, l = o :: '(' :: (b2 ++ ')' :: rest2) → b2 ≠ [] → b.length ≤ b2.length := by
  cases l with
  | nil => simp [hereO] at h
  | cons o rest0 =>
    cases rest0 with
    | nil => simp [hereO] at h
    | cons p after =>
      by_cases hcond : ((p = '(' : Bool) && (o = 'O' || o = 'o')) = true
      · simp [hereO, hcond, Option.map_eq_some'] at h
        obtain ⟨t, ht, hn⟩ := h
        obtain ⟨b, r2, hr, hb, hnb, htl, hmin⟩ := tryTail_some after t ht
        simp only [Bool.and_eq_true, decide_eq_true_eq, Bool.or_eq_true] at hcond
        refine ⟨o, b, r2, by simp [hcond.1, hr], hcond.2, hb, hnb, by omega, ?_⟩
        intro b2 rest2 he hb2
        have he2 : after = b2 ++ ')' :: rest2 := by
          rw [hcond.1] at he
          exact (List.cons.injEq _ _ _ _).mp ((List.cons.injEq _ _ _ _).mp he).2 |>.2
        exact hmin b2 rest2 he2 hb2
      · simp [hereO] at h
        simp only [Bool.and_eq_true, decide_eq_true_eq, Bool.or_eq_true] at hcond
        exact absurd ⟨h.1.1, h.1.2⟩ hcond

lemma first_close (A r A2 r2 : Str) (hne : ')' ∉ A) (he : A ++ ')' :: r = A2 ++ ')' :: r2) :
    A.length ≤ A2.length := by
  induction A2 generalizing A with
  | nil =>
    cases A with
    | nil => simp
    | cons a Atl =>
      exfalso
      simp at he
      apply hne
      rw [he.1]
      exact List.mem_cons_self _ _
  | cons d A2tl ih =>
    cases A with
    | nil => simp
    | cons a Atl =>
      simp only [List.cons_append, List.cons.injEq] at he
      have hne2 : ')' ∉ Atl := fun hm => hne (List.mem_cons_of_mem _ hm)
      have := ih Atl hne2 he.2
      simp only [List.length_cons]
      omega

lemma findO_none (l : Str) (h : findO l = none) :
    ∀ g o b rest, l = g ++ o :: '(' :: (b ++ ')' :: rest) → (∀ c ∈ g, isLineTerm c = false) →
      (o = 'O' ∨ o = 'o') → b ≠ [] → ')' ∉ b → False := by
  induction l with
  | nil =>
    intro g o b rest hl _ _ _ _
    cases g <;> simp at hl
  | cons c rest0 ih =>
    intro g o b rest hl hg ho hb hnb
    cases hh : hereO (c :: rest0) with
    | some n0 => simp [findO, hh] at h
    | none =>
      cases g with
      | nil =>
        simp only [List.nil_append] at hl
        exact hereO_none _ hh o b rest hl ho hb hnb
      | cons d gtl =>
        simp only [List.cons_append, List.cons.injEq] at hl
        have hd : isLineTerm d = false := hg d (List.mem_cons_self _ _)
        have hc : isLineTerm c = false := by rw [hl.1]; exact hd
        simp [findO, hh, hc] at h
        exact ih h gtl o b rest hl.2 (fun x hm => hg x (List.mem_cons_of_mem _ hm)) ho hb hnb

lemma findO_some (l : Str) (n : Nat) (h : findO l = some n) :
    ∃ g o b rest, l = g ++ o :: '(' :: (b ++ ')' :: rest) ∧
      (∀ c ∈ g, isLineTerm c = false) ∧ (o = 'O' ∨ o = 'o') ∧
      b ≠ [] ∧ ')' ∉ b ∧ n = g.length + b.length + 3 ∧
      ∀ g2 o2 b2 rest2, l = g2 ++ o2 :: '(' :: (b2 ++ ')' :: rest2) →
        (∀ c ∈ g2, isLineTerm c = false) →
        (o2 = 'O' ∨ o2 = 'o') → b2 ≠ [] → ')' ∉ b2 → n ≤ g2.length + b2.length + 3 := by
  induction l generalizing n with
  | nil => simp [findO] at h
  | cons c rest0 ih =>
    cases hh : hereO (c :: rest0) with
    | some n0 =>
      have hn : n0 = n := by
        simp [findO, hh] at h
        exact h
      subst hn
      obtain ⟨o, b, r2, hl, ho, hb, hnb, hn0, _⟩ := hereO_some _ _ hh
      have hnA : ')' ∉ o :: '(' :: b := by
        intro hm
        rcases List.mem_cons.mp hm with h1 | hm2
        · rcases ho with h2 | h2 <;> rw [h2] at h1 <;> exact absurd h1.symm (by decide)
        · rcases List.mem_cons.mp hm2 with h1 | hm3
          · exact absurd h1.symm (by decide)
          · exact hnb hm3
      refine ⟨[], o, b, r2, by simpa using hl, by simp, ho, hb, hnb, by simpa using hn0, ?_⟩
      intro g2 o2 b2 rest2 he2 _ _ _ _
      have hA : (o :: '(' :: b) ++ ')' :: r2 = (g2 ++ o2 :: '(' :: b2) ++ ')' :: rest2 := by
        have h1 : (o :: '(' :: b) ++ ')' :: r2 = c :: rest0 := by
          rw [hl]
          simp
        have h2 : (g2 ++ o2 :: '(' :: b2) ++ ')' :: rest2 = c :: rest0 := by
          rw [he2]
          simp
        rw [h1, h2]
      have hle := first_close (o :: '(' :: b) r2 (g2 ++ o2 :: '(' :: b2) rest2 hnA hA
      simp only [List.length_cons, List.length_append] at hle
      omega
    | none =>
      by_cases hc : isLineTerm c = true
      · simp [findO, hh, hc] at h
      · have hc2 : isLineTerm c = false := by simpa using hc
        simp [findO, hh, hc2, Option.map_eq_some'] at h
        obtain ⟨n0, hn0, hnn⟩ := h
        obtain ⟨g, o, b, r2, hl, hg, ho, hb, hnb, hlen, hmin⟩ := ih n0 hn0
        refine ⟨c :: g, o, b, r2, by simp [hl], ?_, ho, hb, hnb, by simp; omega, ?_⟩
        · intro x hm
          rcases List.mem_cons.mp hm with h1 | h2
          · rw [h1]
            exact hc2
          · exact hg x h2
        · intro g2 o2 b2 rest2 he2 hg2 ho2 hb2 hnb2
          cases g2 with
          | nil =>
            exfalso
            simp only [List.nil_append] at he2
            exact hereO_none _ hh o2 b2 rest2 he2 ho2 hb2 hnb2
          | cons d g2tl =>
            simp only [List.cons_append, List.cons.injEq] at he2
            have := hmin g2tl o2 b2 rest2 he2.2
              (fun x hm => hg2 x (List.mem_cons_of_mem _ hm)) ho2 hb2 hnb2
            simp only [List.length_cons]
            omega

lemma lcStr_length (l : Str) : (lcStr l).length = l.length := List.length_map _ _

lemma lcStr_append (a b : Str) : lcStr (a ++ b) = lcStr a ++ lcStr b := List.map_append _ _ _

lemma ciPrefixOf_iff (kw l : Str) :
    ciPrefixOf kw l = true ↔ ∃ k t, l = k ++ t ∧ lcStr k = kw := by
  unfold ciPrefixOf
  rw [isPrefixOf_true_iff]
  constructor
  · rintro ⟨t0, ht⟩
    refine ⟨l.take kw.length, l.drop kw.length, (List.take_append_drop _ l).symm, ?_⟩
    have hmt : lcStr (l.take kw.length) = (lcStr l).take kw.length := by
      unfold lcStr
      rw [List.map_take]
    rw [hmt, ht, List.take_left]
  · rintro ⟨k, t, rfl, hk⟩
    refine ⟨lcStr t, ?_⟩
    rw [lcStr_append, hk]

lemma matchFrom_succ (kw : Str) (c : Char) (rest : Str) (q : Nat) :
    MatchFrom kw (c :: rest) (q + 1) ↔ MatchFrom kw rest q := by
  unfold MatchFrom
  rw [List.drop_succ_cons]

lemma not_matchFrom_zero_of_no_ci (kw s : Str) (h : ciPrefixOf kw s = false) :
    ¬ MatchFrom kw s 0 := by
  rintro ⟨m, rest, hs, k, g, o, b, hm, hk, hg, ho, hb, hnb⟩
  rw [List.drop_zero] at hs
  have hci : ciPrefixOf kw s = true := by
    rw [ciPrefixOf_iff]
    refine ⟨k, (g ++ o :: '(' :: (b ++ [')'])) ++ rest, ?_, hk⟩
    rw [hs, hm]
    simp
  rw [hci] at h
  cases h

lemma drop_kw_of_pat (kw s m rest : Str) (hs : s = m ++ rest)
    (k g : Str) (o : Char) (b : Str) (hm : m = k ++ g ++ o :: '(' :: (b ++ [')']))
    (hk : lcStr k = kw) :
    s.drop kw.length = g ++ o :: '(' :: (b ++ ')' :: rest) := by
  have hkl : k.length = kw.length := by
    rw [← hk, lcStr_length]
  rw [hs, hm, ← hkl]
  have hassoc : k ++ g ++ o :: '(' :: (b ++ [')']) ++ rest =
      k ++ (g ++ o :: '(' :: (b ++ ')' :: rest)) := by
    simp
  rw [hassoc, List.drop_left]

lemma not_matchFrom_zero_of_findO_none (kw s : Str) (hci : ciPrefixOf kw s = true)
    (hf : findO (s.drop kw.length) = none) : ¬ MatchFrom kw s 0 := by
  rintro ⟨m, rest, hs, k, g, o, b, hm, hk, hg, ho, hb, hnb⟩
  rw [List.drop_zero] at hs
  exact findO_none _ hf g o b rest (drop_kw_of_pat kw s m rest hs k g o b hm hk) hg ho hb hnb

lemma firstMatch_none_spec (kw s : Str) (h : firstMatch kw s = none) :
    ∀ p, ¬ MatchFrom kw s p := by
  induction s with
  | nil =>
    intro p
    rintro ⟨m, rest, hs, k, g, o, b, hm, hk, hg, ho, hb, hnb⟩
    rw [List.drop_nil] at hs
    have hmn : m = [] := (List.append_eq_nil.mp hs.symm).1
    rw [hmn] at hm
    simp at hm
  | cons c rest0 ih =>
    by_cases hci : ciPrefixOf kw (c :: rest0) = true
    · cases hf : findO ((c :: rest0).drop kw.length) with
      | some n => simp [firstMatch, hci, hf] at h
      | none =>
        have h2 : firstMatch kw rest0 = none := by
          simpa [firstMatch, hci, hf] using h
        intro p
        cases p with
        | zero => exact not_matchFrom_zero_of_findO_none kw _ hci hf
        | succ q =>
          rw [matchFrom_succ]
          exact ih h2 q
    · have hci2 : ciPrefixOf kw (c :: rest0) = false := by simpa using hci
      have h2 : firstMatch kw rest0 = none := by
        simpa [firstMatch, hci2] using h
      intro p
      cases p with
      | zero => exact not_matchFrom_zero_of_no_ci kw _ hci2
      | succ q =>
        rw [matchFrom_succ]
        exact ih h2 q

lemma firstMatch_some_spec (kw s m : Str) (h : firstMatch kw s = some m) :
    ∃ p, (∀ q, q < p → ¬ MatchFrom kw s q) ∧ (∃ rest, s.drop p = m ++ rest) ∧ IsPat kw m ∧
      ∀ m2 rest2, s.drop p = m2 ++ rest2 → IsPat kw m2 → m.length ≤ m2.length := by
  induction s generalizing m with
  | nil => simp [firstMatch] at h
  | cons c rest0 ih =>
    by_cases hci : ciPrefixOf kw (c :: rest0) = true
    · cases hf : findO ((c :: rest0).drop kw.length) with
      | some n =>
        have hm : m = (c :: rest0).take (kw.length + n) := by
          simp [firstMatch, hci, hf] at h
          exact h.symm
        obtain ⟨k, t, hsplit, hk⟩ := (ciPrefixOf_iff kw (c :: rest0)).mp hci
        have hkl : k.length = kw.length := by
          rw [← hk, lcStr_length]
        have ht : (c :: rest0).drop kw.length = t := by
          rw [hsplit, ← hkl, List.drop_left]
        obtain ⟨g, o, b, r2, hdec, hg, ho, hb, hnb, hn, hmin⟩ := findO_some _ n (ht ▸ hf)
        have hpre : t = (g ++ o :: '(' :: (b ++ [')'])) ++ r2 := by
          rw [hdec]
          simp
        have hnlen : n = (g ++ o :: '(' :: (b ++ [')'])).length := by
          simp [hn]
          omega
        have hmval : m = k ++ (g ++ o :: '(' :: (b ++ [')'])) := by
          rw [hm, hsplit, hpre, ← hkl, hnlen, ← List.append_assoc, List.take_append_eq_append_take]
          rw [List.take_of_length_le (by simp)]
          have hz : k.length + (g ++ o :: '(' :: (b ++ [')'])).length -
              (k ++ (g ++ o :: '(' :: (b ++ [')']))).length = 0 := by
            simp
          rw [hz, List.take_zero, List.append_nil]
        refine ⟨0, by omega, ⟨r2, ?_⟩, ?_, ?_⟩
        · rw [List.drop_zero, hsplit, hpre, hmval]
          simp
        · refine ⟨k, g, o, b, by simpa using hmval, hk, hg, ho, hb, hnb⟩
        · rintro m2 rest2 hd2 ⟨k2, g2, o2, b2, hm2, hk2, hg2, ho2, hb2, hnb2⟩
          rw [List.drop_zero] at hd2
          have hd3 : (c :: rest0).drop kw.length =
              g2 ++ o2 :: '(' :: (b2 ++ ')' :: rest2) :=
            drop_kw_of_pat kw (c :: rest0) m2 rest2 hd2 k2 g2 o2 b2 hm2 hk2
          have hle := hmin g2 o2 b2 rest2 (ht ▸ hd3) hg2 ho2 hb2 hnb2
          have hk2l : k2.length = kw.length := by
            rw [← hk2, lcStr_length]
          have hmlen : m.length = kw.length + n := by
            rw [hmval]
            simp [← hkl, ← hnlen]
          have hm2len : m2.length = k2.length + (g2.length + b2.length + 3) := by
            rw [hm2]
            simp
            omega
          omega
      | none =>
        have h2 : firstMatch kw rest0 = some m := by
          simpa [firstMatch, hci, hf] using h
        obtain ⟨p, hmin, hdecm, hpat, hshort⟩ := ih m h2
        refine ⟨p + 1, ?_, ?_, hpat, ?_⟩
        · intro q hq
          cases q with
          | zero => exact not_matchFrom_zero_of_findO_none kw (c :: rest0) hci hf
          | succ q2 =>
            rw [matchFrom_succ]
            exact hmin q2 (by omega)
        · rw [List.drop_succ_cons]
          exact hdecm
        · intro m2 rest2 hd2 hp2
          rw [List.drop_succ_cons] at hd2
          exact hshort m2 rest2 hd2 hp2
    · have hci2 : ciPrefixOf kw (c :: rest0) = false := by simpa using hci
      have h2 : firstMatch kw rest0 = some m := by
        simpa [firstMatch, hci2] using h
      obtain ⟨p, hmin, hdecm, hpat, hshort⟩ := ih m h2
      refine ⟨p + 1, ?_, ?_, hpat, ?_⟩
      · intro q hq
        cases q with
        | zero => exact not_matchFrom_zero_of_no_ci kw _ hci2
        | succ q2 =>
          rw [matchFrom_succ]
          exact hmin q2 (by omega)
      · rw [List.drop_succ_cons]
        exact hdecm
      · intro m2 rest2 hd2 hp2
        rw [List.drop_succ_cons] at hd2
        exact hshort m2 rest2 hd2 hp2

/-- C2: complexity extraction returns the empty structure when the text has
no literal "O(" substring; otherwise the `time` / `space` keys hold exactly
the leftmost (shortest-at-that-position) match of the case-insensitive
keyword-gap-`O(...)` pattern, and a key is absent when its pattern has no
match anywhere. -/
theorem C2_extractComplexity (content : Str) :
    (containsSub (str "O(") content = false → extractComplexity content = {}) ∧
    (containsSub (str "O(") content = true →
      FirstPatMatch (str "time") content (extractComplexity content).time ∧
      FirstPatMatch (str "space") content (extractComplexity content).space) := by
  constructor
  · intro h
    simp [extractComplexity, h]
  · intro h
    have ht : (extractComplexity content).time = firstMatch (str "time") content := by
      simp [extractComplexity, h]
    have hs : (extractComplexity content).space = firstMatch (str "space") content := by
      simp [extractComplexity, h]
    rw [ht, hs]
    constructor
    · cases hm : firstMatch (str "time") content with
      | none => exact firstMatch_none_spec _ _ hm
      | some m => exact firstMatch_some_spec _ _ _ hm
    · cases hm : firstMatch (str "space") content with
      | none => exact firstMatch_none_spec _ _ hm
      | some m => exact firstMatch_some_spec _ _ _ hm

/-- C2 witness: the example of the spec, with the exact matched substrings,
the empty result on a text with no "O(", and the empty result when a carriage
return separates the keyword from the `O(...)` (the dot of the regex matches
no line terminator, so `match()` finds nothing). -/
theorem C2_witness :
    extractComplexity (str "Time complexity: O(n log n), Space complexity: O(n)") =
      ⟨some (str "Time complexity: O(n log n)"), some (str "Space complexity: O(n)")⟩ ∧
    FirstPatMatch (str "time") (str "Time complexity: O(n log n), Space complexity: O(n)")
      (some (str "Time complexity: O(n log n)")) ∧
    FirstPatMatch (str "space") (str "Time complexity: O(n log n), Space complexity: O(n)")
      (some (str "Space complexity: O(n)")) ∧
    extractComplexity (str "no big oh here") = {} ∧
    extractComplexity (str "time\rO(n)") = {} ∧
    FirstPatMatch (str "time") (str "time\rO(n)") none := by
  have he : extractComplexity (str "Time complexity: O(n log n), Space complexity: O(n)") =
      ⟨some (str "Time complexity: O(n log n)"), some (str "Space complexity: O(n)")⟩ := by
    decide
  have h2 := (C2_extractComplexity
    (str "Time complexity: O(n log n), Space complexity: O(n)")).2 (by decide)
  rw [he] at h2
  have hcr : extractComplexity (str "time\rO(n)") = {} := by decide
  have h3 := ((C2_extractComplexity (str "time\rO(n)")).2 (by decide)).1
  rw [hcr] at h3
  exact ⟨he, h2.1, h2.2,
    (C2_extractComplexity (str "no big oh here")).1 (by decide), hcr, h3⟩

/-! ### C9: prompt structure -/

lemma linesOf_ne_nil (l : Str) : linesOf l ≠ [] := by
  cases l with
  | nil => simp [linesOf]
  | cons c cs =>
    simp only [linesOf]
    cases h : linesOf cs with
    | nil => simp
    | cons x xs =>
      by_cases hc : c = '\n' <;> simp [hc]

lemma linesOf_append (a b : Str) : linesOf (a ++ b) = joinLines (linesOf a) (linesOf b) := by
  induction a with
  | nil =>
    cases h : linesOf b with
    | nil => exact absurd h (linesOf_ne_nil b)
    | cons y ys => simp [linesOf, joinLines, h]
  | cons c atl ih =>
    cases ha : linesOf atl with
    | nil => exact absurd ha (linesOf_ne_nil atl)
    | cons x xs =>
      cases hb : linesOf b with
      | nil => exact absurd hb (linesOf_ne_nil b)
      | cons y ys =>
        by_cases hc : c = '\n'
        · subst hc
          rw [List.cons_append]
          simp only [linesOf, ih, ha, hb]
          cases xs with
          | nil => simp [joinLines]
          | cons x2 xs2 => simp [joinLines]
        · rw [List.cons_append]
          simp only [linesOf, ih, ha, hb]
          cases xs with
          | nil => simp [joinLines, hc]
          | cons x2 xs2 => simp [joinLines, hc]

lemma linesOf_nlFree (x : Str) (h : nlFree x) : linesOf x = [x] := by
  induction x with
  | nil => rfl
  | cons c ctl ih =>
    have hc : c ≠ '\n' := fun hc => h (by rw [hc]; exact List.mem_cons_self _ _)
    have h2 : nlFree ctl := fun hm => h (List.mem_cons_of_mem _ hm)
    simp [linesOf, ih h2, hc]

lemma stripHtml_subset (l : Str) : ∀ c ∈ stripHtml l, c ∈ l := by
  induction l using stripHtml.induct with
  | case1 => simp [stripHtml]
  | case2 rest run hlt ih =>
    intro d hd
    rw [stripHtml] at hd
    simp only [if_pos rfl] at hd
    rw [if_pos hlt] at hd
    exact List.mem_cons_of_mem _ (List.mem_of_mem_drop (ih d hd))
  | case3 rest run hlt ih =>
    intro d hd
    rw [stripHtml] at hd
    simp only [if_pos rfl] at hd
    rw [if_neg hlt] at hd
    rcases List.mem_cons.mp hd with h1 | h2
    · rw [h1]
      exact List.mem_cons_self _ _
    · exact List.mem_cons_of_mem _ (ih d h2)
  | case4 c rest hc ih =>
    intro d hd
    rw [stripHtml] at hd
    rw [if_neg hc] at hd
    rcases List.mem_cons.mp hd with h1 | h2
    · rw [h1]
      exact List.mem_cons_self _ _
    · exact List.mem_cons_of_mem _ (ih d h2)

lemma stripHtml_nlFree (d : Str) (h : nlFree d) : nlFree (stripHtml d) :=
  fun hm => h (stripHtml_subset d '\n' hm)

lemma digitOf_ne_nl (n : Nat) : digitOf n ≠ '\n' := by
  unfold digitOf
  have h : n % 10 < 10 := Nat.mod_lt _ (by omega)
  set k := n % 10 with hk
  interval_cases k <;> decide

lemma natToChars_nlFree (n : Nat) : nlFree (natToChars n) := by
  induction n using natToChars.induct with
  | case1 n hn =>
    rw [natToChars, if_pos hn]
    intro hm
    rcases List.mem_cons.mp hm with h1 | h2
    · exact digitOf_ne_nl n h1.symm
    · simp at h2
  | case2 n hn ih =>
    rw [natToChars, if_neg hn]
    intro hm
    rcases List.mem_append.mp hm with h1 | h2
    · exact ih h1
    · simp at h2
      exact digitOf_ne_nl _ h2.symm

lemma isPrefixOf_append_short (m f x : Str) (h : m.length ≤ f.length) :
    m.isPrefixOf (f ++ x) = m.isPrefixOf f := by
  induction m generalizing f with
  | nil => simp [List.isPrefixOf]
  | cons a mtl ih =>
    cases f with
    | nil => simp at h
    | cons b ftl =>
      simp only [List.cons_append, List.isPrefixOf, List.append_eq]
      rw [ih ftl (by simpa using h)]

lemma isPrefixOf_append_head (f x : Str) : f.isPrefixOf (f ++ x) = true :=
  (isPrefixOf_true_iff f (f ++ x)).mpr ⟨x, rfl⟩

lemma isPrefixOf_append_long (m f x : Str) (h2 : f.length ≤ m.length)
    (h : f.isPrefixOf m = false) : m.isPrefixOf (f ++ x) = false := by
  cases hb : m.isPrefixOf (f ++ x) with
  | false => rfl
  | true =>
    exfalso
    obtain ⟨t, ht⟩ := (isPrefixOf_true_iff _ _).mp hb
    have hf : f = m.take f.length := by
      have h1 : (f ++ x).take f.length = f := List.take_left f x
      rw [ht, List.take_append_eq_append_take, Nat.sub_eq_zero_of_le h2, List.take_zero,
        List.append_nil] at h1
      exact h1.symm
    have hft : f.isPrefixOf m = true := by
      rw [isPrefixOf_true_iff]
      refine ⟨m.drop f.length, ?_⟩
      conv_lhs => rw [← List.take_append_drop f.length m]
      rw [← hf]
    rw [hft] at h
    cases h

lemma isPrefixOf_append_reduce (m A x : Str)
    (h : m.length ≤ A.length ∨ (A.length ≤ m.length ∧ A.isPrefixOf m = false)) :
    m.isPrefixOf (A ++ x) = m.isPrefixOf A := by
  rcases h with h1 | ⟨h2, h3⟩
  · exact isPrefixOf_append_short m A x h1
  · rw [isPrefixOf_append_long m A x h2 h3]
    cases hb : m.isPrefixOf A with
    | false => rfl
    | true =>
      exfalso
      obtain ⟨t, ht⟩ := (isPrefixOf_true_iff _ _).mp hb
      have ht0 : t.length = 0 := by
        have hlen : A.length = m.length + t.length := by
          rw [ht]
          simp
        omega
      rw [List.length_eq_zero.mp ht0, List.append_nil] at ht
      rw [ht] at h3
      rw [(isPrefixOf_true_iff m m).mpr ⟨[], by simp⟩] at h3
      cases h3

lemma crPref1 (m : Str) (hm : m ∈ crMarkers) (x : Str) :
    m.isPrefixOf (str "As a coding mentor, review this " ++ x) =
      m.isPrefixOf (str "As a coding mentor, review this ") := by
  apply isPrefixOf_append_reduce
  fin_cases hm <;> decide

lemma crPref2 (m : Str) (hm : m ∈ crMarkers) (x : Str) :
    m.isPrefixOf (str "Problem Description: " ++ x) =
      m.isPrefixOf (str "Problem Description: ") := by
  apply isPrefixOf_append_reduce
  fin_cases hm <;> decide

lemma crPref3 (m : Str) (hm : m ∈ crMarkers) (x : Str) :
    m.isPrefixOf (str "```" ++ x) = m.isPrefixOf (str "```") := by
  apply isPrefixOf_append_reduce
  fin_cases hm <;> decide

lemma rmPref1 (m : Str) (hm : m ∈ rmMarkers) (x : Str) :
    m.isPrefixOf (str "Create a personalized coding learning roadmap for a " ++ x) =
      m.isPrefixOf (str "Create a personalized coding learning roadmap for a ") := by
  apply isPrefixOf_append_reduce
  fin_cases hm <;> decide

lemma rmPref2 (m : Str) (hm : m ∈ rmMarkers) (x : Str) :
    m.isPrefixOf (str "- Current Level: " ++ x) = m.isPrefixOf (str "- Current Level: ") := by
  apply isPrefixOf_append_reduce
  fin_cases hm <;> decide

lemma rmPref3 (m : Str) (hm : m ∈ rmMarkers) (x : Str) :
    m.isPrefixOf (str "- Goals: " ++ x) = m.isPrefixOf (str "- Goals: ") := by
  apply isPrefixOf_append_reduce
  fin_cases hm <;> decide

lemma rmPref4 (m : Str) (hm : m ∈ rmMarkers) (x : Str) :
    m.isPrefixOf (str "- Time Commitment: " ++ x) =
      m.isPrefixOf (str "- Time Commitment: ") := by
  apply isPrefixOf_append_reduce
  fin_cases hm <;> decide

lemma rmPref5 (m : Str) (hm : m ∈ rmMarkers) (x : Str) :
    m.isPrefixOf (str "- Preferred Topics: " ++ x) =
      m.isPrefixOf (str "- Preferred Topics: ") := by
  apply isPrefixOf_append_reduce
  fin_cases hm <;> decide

lemma rmPref6 (m : Str) (hm : m ∈ rmMarkers) (x : Str) :
    m.isPrefixOf (str "- Problems Solved: " ++ x) =
      m.isPrefixOf (str "- Problems Solved: ") := by
  apply isPrefixOf_append_reduce
  fin_cases hm <;> decide

lemma rmPref7 (m : Str) (hm : m ∈ rmMarkers) (x : Str) :
    m.isPrefixOf (str "- Current Rating: " ++ x) =
      m.isPrefixOf (str "- Current Rating: ") := by
  apply isPrefixOf_append_reduce
  fin_cases hm <;> decide

lemma hintPref1 (m : Str) (hm : m ∈ hintMarkers) (x : Str) :
    m.isPrefixOf (str "Problem: " ++ x) = m.isPrefixOf (str "Problem: ") := by
  apply isPrefixOf_append_reduce
  fin_cases hm <;> decide

lemma hintPref2 (m : Str) (hm : m ∈ hintMarkers) (x : Str) :
    m.isPrefixOf (str "Description: " ++ x) = m.isPrefixOf (str "Description: ") := by
  apply isPrefixOf_append_reduce
  fin_cases hm <;> decide

lemma hintPref3 (m : Str) (hm : m ∈ hintMarkers) (x : Str) :
    m.isPrefixOf (str "Difficulty: " ++ x) = m.isPrefixOf (str "Difficulty: ") := by
  apply isPrefixOf_append_reduce
  fin_cases hm <;> decide

lemma hintPref4 (m : Str) (hm : m ∈ hintMarkers) (x : Str) :
    m.isPrefixOf (str "```" ++ x) = m.isPrefixOf (str "```") := by
  apply isPrefixOf_append_reduce
  fin_cases hm <;> decide

lemma dbgPref1 (m : Str) (hm : m ∈ dbgMarkers) (x : Str) :
    m.isPrefixOf (str "Help debug this " ++ x) = m.isPrefixOf (str "Help debug this ") := by
  apply isPrefixOf_append_reduce
  fin_cases hm <;> decide

lemma dbgPref2 (m : Str) (hm : m ∈ dbgMarkers) (x : Str) :
    m.isPrefixOf (str "Problem: " ++ x) = m.isPrefixOf (str "Problem: ") := by
  apply isPrefixOf_append_reduce
  fin_cases hm <;> decide

lemma dbgPref3 (m : Str) (hm : m ∈ dbgMarkers) (x : Str) :
    m.isPrefixOf (str "Description: " ++ x) = m.isPrefixOf (str "Description: ") := by
  apply isPrefixOf_append_reduce
  fin_cases hm <;> decide

lemma dbgPref4 (m : Str) (hm : m ∈ dbgMarkers) (x : Str) :
    m.isPrefixOf (str "```" ++ x) = m.isPrefixOf (str "```") := by
  apply isPrefixOf_append_reduce
  fin_cases hm <;> decide

lemma dbgPref5 (m : Str) (hm : m ∈ dbgMarkers) (x : Str) :
    m.isPrefixOf (str "Error: " ++ x) = m.isPrefixOf (str "Error: ") := by
  apply isPrefixOf_append_reduce
  fin_cases hm <;> decide

lemma hintMarkersNoCode_sub : ∀ m ∈ hintMarkersNoCode, m ∈ hintMarkers := by decide

lemma dbgMarkersNoProblem_sub : ∀ m ∈ dbgMarkersNoProblem, m ∈ dbgMarkers := by decide

lemma joinComma_nlFree (gs : List Str) (h : ∀ g ∈ gs, nlFree g) : nlFree (joinComma gs) := by
  induction gs with
  | nil => simp [joinComma, nlFree]
  | cons g gtl ih =>
    cases gtl with
    | nil => exact h g (by simp)
    | cons g2 gtl2 =>
      intro hm
      rw [joinComma] at hm
      rcases List.mem_append.mp hm with h1 | h2
      · rcases List.mem_append.mp h1 with h3 | h4
        · exact h g (by simp) h3
        · simp [str] at h4
      · exact ih (fun g3 hg3 => h g3 (List.mem_cons_of_mem _ hg3)) h2

lemma crLines_eq (lang title desc code : Str) (h1 : nlFree lang) (h2 : nlFree title)
    (h3 : nlFree desc) (h4 : nlFree code) :
    linesOf (buildCodeReviewPrompt lang title desc code) =
      crLines lang title (stripHtml desc) code := by
  have hdesc := stripHtml_nlFree desc h3
  have e1 : linesOf (str "\nAs a coding mentor, review this ") =
      [[], str "As a coding mentor, review this "] := by decide
  have e2 : linesOf (str " code for the problem \"") = [str " code for the problem \""] := by
    decide
  have e3 : linesOf (str "\":\n\nProblem Description: ") =
      [str "\":", [], str "Problem Description: "] := by decide
  have e4 : linesOf (str "\n\nCode:\n```") = [[], [], str "Code:", str "```"] := by decide
  have e5 : linesOf (str "\n") = [[], []] := by decide
  have e6 : linesOf (str "\n```\n\nPlease provide:\n1. Code quality assessment (readability, structure, best practices)\n2. Time and space complexity analysis\n3. Potential bugs or edge cases missed\n4. Suggestions for improvement\n5. Alternative approaches if applicable\n\nKeep the response concise but comprehensive.\n    ") =
      [[], str "```", [], str "Please provide:",
       str "1. Code quality assessment (readability, structure, best practices)",
       str "2. Time and space complexity analysis",
       str "3. Potential bugs or edge cases missed", str "4. Suggestions for improvement",
       str "5. Alternative approaches if applicable", [],
       str "Keep the response concise but comprehensive.", str "    "] := by decide
  simp only [buildCodeReviewPrompt, linesOf_append, linesOf_nlFree _ h1, linesOf_nlFree _ h2,
    linesOf_nlFree _ hdesc, linesOf_nlFree _ h4, e1, e2, e3, e4, e5, e6, crLines]
  simp only [joinLines]
  simp only [List.append_assoc, List.append_nil, List.nil_append]

lemma rmLines_eq (lvl : Str) (goals : List Str) (tc : Str) (topics : List Str)
    (solved rating : Nat) (h1 : nlFree lvl) (h2 : ∀ g ∈ goals, nlFree g) (h3 : nlFree tc)
    (h4 : ∀ g ∈ topics, nlFree g) :
    linesOf (buildRoadmapPrompt lvl goals tc topics solved rating) =
      rmLines lvl (joinComma goals) tc (joinComma topics) (natToChars solved)
        (natToChars rating) := by
  have hg := joinComma_nlFree goals h2
  have hp := joinComma_nlFree topics h4
  have hs := natToChars_nlFree solved
  have hr := natToChars_nlFree rating
  simp only [buildRoadmapPrompt]
  generalize hg1 : joinComma goals = gj
  rw [hg1] at hg
  generalize hg2 : joinComma topics = tj
  rw [hg2] at hp
  generalize hg3 : natToChars solved = ns
  rw [hg3] at hs
  generalize hg4 : natToChars rating = nr
  rw [hg4] at hr
  have e1 : linesOf (str "\nCreate a personalized coding learning roadmap for a ") =
      [[], str "Create a personalized coding learning roadmap for a "] := by decide
  have e2 : linesOf (str " level programmer.\n\nUser Profile:\n- Current Level: ") =
      [str " level programmer.", [], str "User Profile:", str "- Current Level: "] := by decide
  have e3 : linesOf (str "\n- Goals: ") = [[], str "- Goals: "] := by decide
  have e4 : linesOf (str "\n- Time Commitment: ") = [[], str "- Time Commitment: "] := by
    decide
  have e5 : linesOf (str " hours per week\n- Preferred Topics: ") =
      [str " hours per week", str "- Preferred Topics: "] := by decide
  have e6 : linesOf (str "\n- Problems Solved: ") = [[], str "- Problems Solved: "] := by
    decide
  have e7 : linesOf (str "\n- Current Rating: ") = [[], str "- Current Rating: "] := by decide
  have e8 : linesOf (str "\n\nPlease provide:\n1. A structured learning path with milestones\n2. Recommended topics and concepts to study\n3. Practice problem categories and difficulty progression\n4. Estimated timeline for each phase\n5. Resources and tips for effective learning\n\nFormat as a detailed roadmap with clear phases and actionable steps.\n    ") =
      [[], [], str "Please provide:", str "1. A structured learning path with milestones",
       str "2. Recommended topics and concepts to study",
       str "3. Practice problem categories and difficulty progression",
       str "4. Estimated timeline for each phase",
       str "5. Resources and tips for effective learning", [],
       str "Format as a detailed roadmap with clear phases and actionable steps.",
       str "    "] := by decide
  simp only [linesOf_append, linesOf_nlFree _ h1, linesOf_nlFree _ hg,
    linesOf_nlFree _ h3, linesOf_nlFree _ hp, linesOf_nlFree _ hs, linesOf_nlFree _ hr,
    e1, e2, e3, e4, e5, e6, e7, e8, rmLines]
  simp only [joinLines]
  simp only [List.append_assoc, List.append_nil, List.nil_append]

lemma hintLinesSome_eq (title desc diff c lang : Str) (h1 : nlFree title) (h2 : nlFree desc)
    (h3 : nlFree diff) (h4 : nlFree c) (h5 : nlFree lang) (hc : c ≠ []) :
    linesOf (buildHintPrompt title desc diff (some c) lang) =
      hintLinesSome title (stripHtml desc) diff c lang := by
  have hdesc := stripHtml_nlFree desc h2
  have hif : c.isEmpty = false := by
    cases c with
    | nil => exact absurd rfl hc
    | cons a t => rfl
  have e1 : linesOf (str "\nProvide a helpful hint for solving this coding problem. Don\x27t give away the complete solution, but guide the user in the right direction.\n\nProblem: ") =
      [[], str "Provide a helpful hint for solving this coding problem. Don\x27t give away the complete solution, but guide the user in the right direction.",
       [], str "Problem: "] := by decide
  have e2 : linesOf (str "\nDescription: ") = [[], str "Description: "] := by decide
  have e3 : linesOf (str "\nDifficulty: ") = [[], str "Difficulty: "] := by decide
  have e4 : linesOf (str "\n\n") = [[], [], []] := by decide
  have e5 : linesOf (str "Current attempt:\n```") = [str "Current attempt:", str "```"] := by
    decide
  have e6 : linesOf (str "\n") = [[], []] := by decide
  have e7 : linesOf (str "\n```") = [[], str "```"] := by decide
  have e8 : linesOf (str "\n\nProvide:\n1. A conceptual hint about the approach\n2. Key insights or patterns to recognize\n3. Suggested next steps\n4. Common pitfalls to avoid\n\nKeep it encouraging and educational without spoiling the solution.\n    ") =
      [[], [], str "Provide:", str "1. A conceptual hint about the approach",
       str "2. Key insights or patterns to recognize", str "3. Suggested next steps",
       str "4. Common pitfalls to avoid", [],
       str "Keep it encouraging and educational without spoiling the solution.",
       str "    "] := by decide
  simp only [buildHintPrompt, hif, Bool.false_eq_true, if_false, linesOf_append,
    linesOf_nlFree _ h1, linesOf_nlFree _ hdesc, linesOf_nlFree _ h3, linesOf_nlFree _ h4,
    linesOf_nlFree _ h5, e1, e2, e3, e4, e5, e6, e7, e8, hintLinesSome]
  simp only [joinLines]
  simp only [List.append_assoc, List.append_nil, List.nil_append]

lemma hintLinesNone_eq (title desc diff lang : Str) (h1 : nlFree title) (h2 : nlFree desc)
    (h3 : nlFree diff) :
    linesOf (buildHintPrompt title desc diff none lang) =
      hintLinesNone title (stripHtml desc) diff := by
  have hdesc := stripHtml_nlFree desc h2
  have e1 : linesOf (str "\nProvide a helpful hint for solving this coding problem. Don\x27t give away the complete solution, but guide the user in the right direction.\n\nProblem: ") =
      [[], str "Provide a helpful hint for solving this coding problem. Don\x27t give away the complete solution, but guide the user in the right direction.",
       [], str "Problem: "] := by decide
  have e2 : linesOf (str "\nDescription: ") = [[], str "Description: "] := by decide
  have e3 : linesOf (str "\nDifficulty: ") = [[], str "Difficulty: "] := by decide
  have e4 : linesOf (str "\n\n") = [[], [], []] := by decide
  have e8 : linesOf (str "\n\nProvide:\n1. A conceptual hint about the approach\n2. Key insights or patterns to recognize\n3. Suggested next steps\n4. Common pitfalls to avoid\n\nKeep it encouraging and educational without spoiling the solution.\n    ") =
      [[], [], str "Provide:", str "1. A conceptual hint about the approach",
       str "2. Key insights or patterns to recognize", str "3. Suggested next steps",
       str "4. Common pitfalls to avoid", [],
       str "Keep it encouraging and educational without spoiling the solution.",
       str "    "] := by decide
  have e0 : linesOf ([] : Str) = [[]] := rfl
  simp only [buildHintPrompt, linesOf_append, linesOf_nlFree _ h1, linesOf_nlFree _ hdesc,
    linesOf_nlFree _ h3, e0, e1, e2, e3, e4, e8, hintLinesNone]
  simp only [joinLines]
  simp only [List.append_assoc, List.append_nil, List.nil_append]

lemma dbgLinesSome_eq (lang : Str) (p : Problem) (code err : Str) (h1 : nlFree lang)
    (h2 : nlFree p.title) (h3 : nlFree p.description) (h4 : nlFree code) (h5 : nlFree err) :
    linesOf (buildDebugPrompt lang (some p) code err) =
      dbgLinesSome lang p.title (stripHtml p.description) code err := by
  have hdesc := stripHtml_nlFree p.description h3
  have e1 : linesOf (str "\nHelp debug this ") = [[], str "Help debug this "] := by decide
  have e2 : linesOf (str " code that\x27s encountering an error.\n\n") =
      [str " code that\x27s encountering an error.", [], []] := by decide
  have e3 : linesOf (str "Problem: ") = [str "Problem: "] := by decide
  have e4 : linesOf (str "\n") = [[], []] := by decide
  have e5 : linesOf (str "Description: ") = [str "Description: "] := by decide
  have e6 : linesOf (str "\n\nCode:\n```") = [[], [], str "Code:", str "```"] := by decide
  have e7 : linesOf (str "\n```\n\nError: ") = [[], str "```", [], str "Error: "] := by decide
  have e8 : linesOf (str "\n\nPlease provide:\n1. Explanation of what\x27s causing the error\n2. Step-by-step debugging approach\n3. Specific fixes needed\n4. Prevention tips for similar issues\n\nBe clear and educational in your explanation.\n    ") =
      [[], [], str "Please provide:", str "1. Explanation of what\x27s causing the error",
       str "2. Step-by-step debugging approach", str "3. Specific fixes needed",
       str "4. Prevention tips for similar issues", [],
       str "Be clear and educational in your explanation.", str "    "] := by decide
  simp only [buildDebugPrompt, linesOf_append, linesOf_nlFree _ h1, linesOf_nlFree _ h2,
    linesOf_nlFree _ hdesc, linesOf_nlFree _ h4, linesOf_nlFree _ h5, e1, e2, e3, e4, e5,
    e6, e7, e8, dbgLinesSome]
  simp only [joinLines]
  simp only [List.append_assoc, List.append_nil, List.nil_append]

lemma dbgLinesNone_eq (lang code err : Str) (h1 : nlFree lang) (h4 : nlFree code)
    (h5 : nlFree err) :
    linesOf (buildDebugPrompt lang none code err) = dbgLinesNone lang code err := by
  have e1 : linesOf (str "\nHelp debug this ") = [[], str "Help debug this "] := by decide
  have e2 : linesOf (str " code that\x27s encountering an error.\n\n") =
      [str " code that\x27s encountering an error.", [], []] := by decide
  have e4 : linesOf (str "\n") = [[], []] := by decide
  have e6 : linesOf (str "\n\nCode:\n```") = [[], [], str "Code:", str "```"] := by decide
  have e7 : linesOf (str "\n```\n\nError: ") = [[], str "```", [], str "Error: "] := by decide
  have e8 : linesOf (str "\n\nPlease provide:\n1. Explanation of what\x27s causing the error\n2. Step-by-step debugging approach\n3. Specific fixes needed\n4. Prevention tips for similar issues\n\nBe clear and educational in your explanation.\n    ") =
      [[], [], str "Please provide:", str "1. Explanation of what\x27s causing the error",
       str "2. Step-by-step debugging approach", str "3. Specific fixes needed",
       str "4. Prevention tips for similar issues", [],
       str "Be clear and educational in your explanation.", str "    "] := by decide
  have e0 : linesOf ([] : Str) = [[]] := rfl
  simp only [buildDebugPrompt, linesOf_append, linesOf_nlFree _ h1, linesOf_nlFree _ h4,
    linesOf_nlFree _ h5, e0, e1, e2, e4, e6, e7, e8, dbgLinesNone]
  simp only [joinLines]
  simp only [List.append_assoc, List.append_nil, List.nil_append]

lemma crCounts (lang title cdesc code : Str) (hcode : avoids code crMarkers) :
    ∀ m ∈ crMarkers, countPre m (crLines lang title cdesc code) = 1 := by
  intro m hm
  have p1 := crPref1 m hm
  have p2 := crPref2 m hm
  have p3 := crPref3 m hm
  have p4 := hcode m hm
  simp only [crLines, countPre, List.countP_cons, List.countP_nil, List.append_assoc,
    p1, p2, p3, p4]
  fin_cases hm <;> decide

lemma rmCounts (lvl gj tc tj ns nr : Str) :
    ∀ m ∈ rmMarkers, countPre m (rmLines lvl gj tc tj ns nr) = 1 := by
  intro m hm
  have p1 := rmPref1 m hm
  have p2 := rmPref2 m hm
  have p3 := rmPref3 m hm
  have p4 := rmPref4 m hm
  have p5 := rmPref5 m hm
  have p6 := rmPref6 m hm
  have p7 := rmPref7 m hm
  simp only [rmLines, countPre, List.countP_cons, List.countP_nil, List.append_assoc,
    p1, p2, p3, p4, p5, p6, p7]
  fin_cases hm <;> decide

lemma hintSomeCounts (title cdesc diff c lang : Str) (hc : avoids c hintMarkers) :
    ∀ m ∈ hintMarkers, countPre m (hintLinesSome title cdesc diff c lang) = 1 := by
  intro m hm
  have p1 := hintPref1 m hm
  have p2 := hintPref2 m hm
  have p3 := hintPref3 m hm
  have p4 := hintPref4 m hm
  have p5 := hc m hm
  simp only [hintLinesSome, countPre, List.countP_cons, List.countP_nil, List.append_assoc,
    p1, p2, p3, p4, p5]
  fin_cases hm <;> decide

lemma hintNoneCounts (title cdesc diff : Str) :
    ∀ m ∈ hintMarkersNoCode, countPre m (hintLinesNone title cdesc diff) = 1 := by
  intro m hm
  have hm2 := hintMarkersNoCode_sub m hm
  have p1 := hintPref1 m hm2
  have p2 := hintPref2 m hm2
  have p3 := hintPref3 m hm2
  simp only [hintLinesNone, countPre, List.countP_cons, List.countP_nil, List.append_assoc,
    p1, p2, p3]
  fin_cases hm <;> decide

lemma hintNoneNoAttempt (title cdesc diff : Str) :
    countPre (str "Current attempt:") (hintLinesNone title cdesc diff) = 0 := by
  have p1 := hintPref1 (str "Current attempt:") (by decide)
  have p2 := hintPref2 (str "Current attempt:") (by decide)
  have p3 := hintPref3 (str "Current attempt:") (by decide)
  simp only [hintLinesNone, countPre, List.countP_cons, List.countP_nil, List.append_assoc,
    p1, p2, p3]
  decide

lemma dbgSomeCounts (lang title cdesc code err : Str) (hcode : avoids code dbgMarkers) :
    ∀ m ∈ dbgMarkers, countPre m (dbgLinesSome lang title cdesc code err) = 1 := by
  intro m hm
  have p1 := dbgPref1 m hm
  have p2 := dbgPref2 m hm
  have p3 := dbgPref3 m hm
  have p4 := dbgPref4 m hm
  have p5 := dbgPref5 m hm
  have p6 := hcode m hm
  simp only [dbgLinesSome, countPre, List.countP_cons, List.countP_nil, List.append_assoc,
    p1, p2, p3, p4, p5, p6]
  fin_cases hm <;> decide

lemma dbgNoneCounts (lang code err : Str) (hcode : avoids code dbgMarkers) :
    ∀ m ∈ dbgMarkersNoProblem, countPre m (dbgLinesNone lang code err) = 1 := by
  intro m hm
  have hm2 := dbgMarkersNoProblem_sub m hm
  have p1 := dbgPref1 m hm2
  have p4 := dbgPref4 m hm2
  have p5 := dbgPref5 m hm2
  have p6 := hcode m hm2
  simp only [dbgLinesNone, countPre, List.countP_cons, List.countP_nil, List.append_assoc,
    p1, p4, p5, p6]
  fin_cases hm <;> decide

lemma dbgNoneNoProblem (lang code err : Str) (hcode : avoids code dbgMarkers) :
    countPre (str "Problem: ") (dbgLinesNone lang code err) = 0 ∧
    countPre (str "Description: ") (dbgLinesNone lang code err) = 0 := by
  constructor
  · have p1 := dbgPref1 (str "Problem: ") (by decide)
    have p4 := dbgPref4 (str "Problem: ") (by decide)
    have p5 := dbgPref5 (str "Problem: ") (by decide)
    have p6 := hcode (str "Problem: ") (by decide)
    simp only [dbgLinesNone, countPre, List.countP_cons, List.countP_nil, List.append_assoc,
      p1, p4, p5, p6]
    decide
  · have p1 := dbgPref1 (str "Description: ") (by decide)
    have p4 := dbgPref4 (str "Description: ") (by decide)
    have p5 := dbgPref5 (str "Description: ") (by decide)
    have p6 := hcode (str "Description: ") (by decide)
    simp only [dbgLinesNone, countPre, List.countP_cons, List.countP_nil, List.append_assoc,
      p1, p4, p5, p6]
    decide

lemma inOrder_skip (l : Str) (lines ms : List Str) (h : sectionsInOrder lines ms) :
    sectionsInOrder (l :: lines) ms := by
  cases ms with
  | nil => trivial
  | cons m mtl =>
    obtain ⟨pre, lx, post, heq, hp, hrest⟩ := h
    exact ⟨l :: pre, lx, post, by rw [heq]; rfl, hp, hrest⟩

lemma inOrder_here (m l : Str) (lines ms : List Str) (h1 : m <+: l)
    (h2 : sectionsInOrder lines ms) : sectionsInOrder (l :: lines) (m :: ms) :=
  ⟨[], l, lines, rfl, h1, h2⟩

lemma crOrder (lang title cdesc code : Str) :
    sectionsInOrder (crLines lang title cdesc code) crMarkers := by
  simp only [crLines, crMarkers, List.append_assoc]
  apply inOrder_skip
  refine inOrder_here _ _ _ _ (List.prefix_append _ _) ?_
  apply inOrder_skip
  refine inOrder_here _ _ _ _ (List.prefix_append _ _) ?_
  apply inOrder_skip
  refine inOrder_here _ _ _ _ (by decide) ?_
  apply inOrder_skip
  apply inOrder_skip
  apply inOrder_skip
  apply inOrder_skip
  refine inOrder_here _ _ _ _ (by decide) ?_
  refine inOrder_here _ _ _ _ (by decide) ?_
  refine inOrder_here _ _ _ _ (by decide) ?_
  refine inOrder_here _ _ _ _ (by decide) ?_
  refine inOrder_here _ _ _ _ (by decide) ?_
  refine inOrder_here _ _ _ _ (by decide) ?_
  trivial

lemma rmOrder (lvl gj tc tj ns nr : Str) :
    sectionsInOrder (rmLines lvl gj tc tj ns nr) rmMarkers := by
  simp only [rmLines, rmMarkers, List.append_assoc]
  apply inOrder_skip
  refine inOrder_here _ _ _ _
    (@List.IsPrefix.trans _ _
      (str "Create a personalized coding learning roadmap for a ") _
      (by decide) (List.prefix_append _ _)) ?_
  apply inOrder_skip
  refine inOrder_here _ _ _ _ (by decide) ?_
  refine inOrder_here _ _ _ _ (List.prefix_append _ _) ?_
  refine inOrder_here _ _ _ _ (List.prefix_append _ _) ?_
  refine inOrder_here _ _ _ _ (List.prefix_append _ _) ?_
  refine inOrder_here _ _ _ _ (List.prefix_append _ _) ?_
  refine inOrder_here _ _ _ _ (List.prefix_append _ _) ?_
  refine inOrder_here _ _ _ _ (List.prefix_append _ _) ?_
  apply inOrder_skip
  refine inOrder_here _ _ _ _ (by decide) ?_
  refine inOrder_here _ _ _ _ (by decide) ?_
  refine inOrder_here _ _ _ _ (by decide) ?_
  refine inOrder_here _ _ _ _ (by decide) ?_
  refine inOrder_here _ _ _ _ (by decide) ?_
  refine inOrder_here _ _ _ _ (by decide) ?_
  trivial

lemma hintSomeOrder (title cdesc diff c lang : Str) :
    sectionsInOrder (hintLinesSome title cdesc diff c lang) hintMarkers := by
  simp only [hintLinesSome, hintMarkers, List.append_assoc]
  apply inOrder_skip
  refine inOrder_here _ _ _ _ (by decide) ?_
  apply inOrder_skip
  refine inOrder_here _ _ _ _ (List.prefix_append _ _) ?_
  refine inOrder_here _ _ _ _ (List.prefix_append _ _) ?_
  refine inOrder_here _ _ _ _ (List.prefix_append _ _) ?_
  apply inOrder_skip
  refine inOrder_here _ _ _ _ (by decide) ?_
  apply inOrder_skip
  apply inOrder_skip
  apply inOrder_skip
  apply inOrder_skip
  refine inOrder_here _ _ _ _ (by decide) ?_
  refine inOrder_here _ _ _ _ (by decide) ?_
  refine inOrder_here _ _ _ _ (by decide) ?_
  refine inOrder_here _ _ _ _ (by decide) ?_
  refine inOrder_here _ _ _ _ (by decide) ?_
  trivial

lemma hintNoneOrder (title cdesc diff : Str) :
    sectionsInOrder (hintLinesNone title cdesc diff) hintMarkersNoCode := by
  simp only [hintLinesNone, hintMarkersNoCode, List.append_assoc]
  apply inOrder_skip
  refine inOrder_here _ _ _ _ (by decide) ?_
  apply inOrder_skip
  refine inOrder_here _ _ _ _ (List.prefix_append _ _) ?_
  refine inOrder_here _ _ _ _ (List.prefix_append _ _) ?_
  refine inOrder_here _ _ _ _ (List.prefix_append _ _) ?_
  apply inOrder_skip
  apply inOrder_skip
  apply inOrder_skip
  refine inOrder_here _ _ _ _ (by decide) ?_
  refine inOrder_here _ _ _ _ (by decide) ?_
  refine inOrder_here _ _ _ _ (by decide) ?_
  refine inOrder_here _ _ _ _ (by decide) ?_
  refine inOrder_here _ _ _ _ (by decide) ?_
  trivial

lemma dbgSomeOrder (lang title cdesc code err : Str) :
    sectionsInOrder (dbgLinesSome lang title cdesc code err) dbgMarkers := by
  simp only [dbgLinesSome, dbgMarkers, List.append_assoc]
  apply inOrder_skip
  refine inOrder_here _ _ _ _ (List.prefix_append _ _) ?_
  apply inOrder_skip
  refine inOrder_here _ _ _ _ (List.prefix_append _ _) ?_
  refine inOrder_here _ _ _ _ (List.prefix_append _ _) ?_
  apply inOrder_skip
  refine inOrder_here _ _ _ _ (by decide) ?_
  apply inOrder_skip
  apply inOrder_skip
  apply inOrder_skip
  apply inOrder_skip
  refine inOrder_here _ _ _ _ (List.prefix_append _ _) ?_
  apply inOrder_skip
  refine inOrder_here _ _ _ _ (by decide) ?_
  refine inOrder_here _ _ _ _ (by decide) ?_
  refine inOrder_here _ _ _ _ (by decide) ?_
  refine inOrder_here _ _ _ _ (by decide) ?_
  refine inOrder_here _ _ _ _ (by decide) ?_
  trivial

lemma dbgNoneOrder (lang code err : Str) :
    sectionsInOrder (dbgLinesNone lang code err) dbgMarkersNoProblem := by
  simp only [dbgLinesNone, dbgMarkersNoProblem, List.append_assoc]
  apply inOrder_skip
  refine inOrder_here _ _ _ _ (List.prefix_append _ _) ?_
  apply inOrder_skip
  apply inOrder_skip
  apply inOrder_skip
  apply inOrder_skip
  refine inOrder_here _ _ _ _ (by decide) ?_
  apply inOrder_skip
  apply inOrder_skip
  apply inOrder_skip
  apply inOrder_skip
  refine inOrder_here _ _ _ _ (List.prefix_append _ _) ?_
  apply inOrder_skip
  refine inOrder_here _ _ _ _ (by decide) ?_
  refine inOrder_here _ _ _ _ (by decide) ?_
  refine inOrder_here _ _ _ _ (by decide) ?_
  refine inOrder_here _ _ _ _ (by decide) ?_
  refine inOrder_here _ _ _ _ (by decide) ?_
  trivial

lemma stripHtml_no_tag (d : Str) (h : '<' ∉ d) : stripHtml d = d := by
  induction d with
  | nil => rw [stripHtml]
  | cons c rest ih =>
    have hc : c ≠ '<' := fun hcc => h (by rw [hcc]; exact List.mem_cons_self _ _)
    rw [stripHtml, if_neg hc, ih (fun hm => h (List.mem_cons_of_mem _ hm))]

/-- C9: for single-line fields that do not themselves start a section, each of
the four prompts splits into exactly the template lines, every section marker
heads exactly one line, the markers appear in the fixed template order, the
interpolated description is HTML-stripped, and the only omissions are the
hint current-attempt block (no current code) and the debug problem section
(no Problem); tag-free text is retained verbatim by the stripper. -/
theorem C9_prompt_sections
    (lang title desc code lvl : Str) (goals : List Str) (tc : Str) (topics : List Str)
    (solved rating : Nat) (htitle hdesc hdiff hcur : Str) (dp : Problem) (dcode derr : Str)
    (h1 : nlFree lang) (h2 : nlFree title) (h3 : nlFree desc) (h4 : nlFree code)
    (h5 : avoids code crMarkers) (h6 : nlFree lvl) (h7 : ∀ g ∈ goals, nlFree g)
    (h8 : nlFree tc) (h9 : ∀ g ∈ topics, nlFree g) (h10 : nlFree htitle)
    (h11 : nlFree hdesc) (h12 : nlFree hdiff) (h13 : nlFree hcur) (h14 : hcur ≠ [])
    (h15 : avoids hcur hintMarkers) (h16 : nlFree dp.title) (h17 : nlFree dp.description)
    (h18 : nlFree dcode) (h19 : nlFree derr) (h20 : avoids dcode dbgMarkers) :
    (linesOf (buildCodeReviewPrompt lang title desc code) =
        crLines lang title (stripHtml desc) code ∧
      (∀ m ∈ crMarkers,
        countPre m (linesOf (buildCodeReviewPrompt lang title desc code)) = 1) ∧
      sectionsInOrder (linesOf (buildCodeReviewPrompt lang title desc code)) crMarkers) ∧
    (linesOf (buildRoadmapPrompt lvl goals tc topics solved rating) =
        rmLines lvl (joinComma goals) tc (joinComma topics) (natToChars solved)
          (natToChars rating) ∧
      (∀ m ∈ rmMarkers,
        countPre m (linesOf (buildRoadmapPrompt lvl goals tc topics solved rating)) = 1) ∧
      sectionsInOrder (linesOf (buildRoadmapPrompt lvl goals tc topics solved rating))
        rmMarkers) ∧
    (linesOf (buildHintPrompt htitle hdesc hdiff (some hcur) lang) =
        hintLinesSome htitle (stripHtml hdesc) hdiff hcur lang ∧
      (∀ m ∈ hintMarkers,
        countPre m (linesOf (buildHintPrompt htitle hdesc hdiff (some hcur) lang)) = 1) ∧
      sectionsInOrder (linesOf (buildHintPrompt htitle hdesc hdiff (some hcur) lang))
        hintMarkers) ∧
    (linesOf (buildHintPrompt htitle hdesc hdiff none lang) =
        hintLinesNone htitle (stripHtml hdesc) hdiff ∧
      (∀ m ∈ hintMarkersNoCode,
        countPre m (linesOf (buildHintPrompt htitle hdesc hdiff none lang)) = 1) ∧
      countPre (str "Current attempt:")
        (linesOf (buildHintPrompt htitle hdesc hdiff none lang)) = 0 ∧
      sectionsInOrder (linesOf (buildHintPrompt htitle hdesc hdiff none lang))
        hintMarkersNoCode) ∧
    (linesOf (buildDebugPrompt lang (some dp) dcode derr) =
        dbgLinesSome lang dp.title (stripHtml dp.description) dcode derr ∧
      (∀ m ∈ dbgMarkers,
        countPre m (linesOf (buildDebugPrompt lang (some dp) dcode derr)) = 1) ∧
      sectionsInOrder (linesOf (buildDebugPrompt lang (some dp) dcode derr)) dbgMarkers) ∧
    (linesOf (buildDebugPrompt lang none dcode derr) = dbgLinesNone lang dcode derr ∧
      (∀ m ∈ dbgMarkersNoProblem,
        countPre m (linesOf (buildDebugPrompt lang none dcode derr)) = 1) ∧
      countPre (str "Problem: ") (linesOf (buildDebugPrompt lang none dcode derr)) = 0 ∧
      countPre (str "Description: ") (linesOf (buildDebugPrompt lang none dcode derr)) = 0 ∧
      sectionsInOrder (linesOf (buildDebugPrompt lang none dcode derr))
        dbgMarkersNoProblem) ∧
    (∀ d2, '<' ∉ d2 → stripHtml d2 = d2) := by
  have ecr := crLines_eq lang title desc code h1 h2 h3 h4
  have erm := rmLines_eq lvl goals tc topics solved rating h6 h7 h8 h9
  have ehs := hintLinesSome_eq htitle hdesc hdiff hcur lang h10 h11 h12 h13 h1 h14
  have ehn := hintLinesNone_eq htitle hdesc hdiff lang h10 h11 h12
  have eds := dbgLinesSome_eq lang dp dcode derr h1 h16 h17 h18 h19
  have edn := dbgLinesNone_eq lang dcode derr h1 h18 h19
  refine ⟨⟨ecr, ?_, ?_⟩, ⟨erm, ?_, ?_⟩, ⟨ehs, ?_, ?_⟩, ⟨ehn, ?_, ?_, ?_⟩,
    ⟨eds, ?_, ?_⟩, ⟨edn, ?_, ?_, ?_, ?_⟩, stripHtml_no_tag⟩
  · intro m hm
    rw [ecr]
    exact crCounts lang title (stripHtml desc) code h5 m hm
  · rw [ecr]
    exact crOrder lang title (stripHtml desc) code
  · intro m hm
    rw [erm]
    exact rmCounts lvl (joinComma goals) tc (joinComma topics) (natToChars solved)
      (natToChars rating) m hm
  · rw [erm]
    exact rmOrder lvl (joinComma goals) tc (joinComma topics) (natToChars solved)
      (natToChars rating)
  · intro m hm
    rw [ehs]
    exact hintSomeCounts htitle (stripHtml hdesc) hdiff hcur lang h15 m hm
  · rw [ehs]
    exact hintSomeOrder htitle (stripHtml hdesc) hdiff hcur lang
  · intro m hm
    rw [ehn]
    exact hintNoneCounts htitle (stripHtml hdesc) hdiff m hm
  · rw [ehn]
    exact hintNoneNoAttempt htitle (stripHtml hdesc) hdiff
  · rw [ehn]
    exact hintNoneOrder htitle (stripHtml hdesc) hdiff
  · intro m hm
    rw [eds]
    exact dbgSomeCounts lang dp.title (stripHtml dp.description) dcode derr h20 m hm
  · rw [eds]
    exact dbgSomeOrder lang dp.title (stripHtml dp.description) dcode derr
  · intro m hm
    rw [edn]
    exact dbgNoneCounts lang dcode derr h20 m hm
  · rw [edn]
    exact (dbgNoneNoProblem lang dcode derr h20).1
  · rw [edn]
    exact (dbgNoneNoProblem lang dcode derr h20).2
  · rw [edn]
    exact dbgNoneOrder lang dcode derr

theorem C9_witness :
    linesOf (buildCodeReviewPrompt (str "python") (str "Two Sum")
        (str "<p>Find two numbers.</p>") (str "return x")) =
      crLines (str "python") (str "Two Sum") (str "Find two numbers.") (str "return x") ∧
    sectionsInOrder (linesOf (buildHintPrompt (str "Two Sum")
        (str "<p>Find two numbers.</p>") (str "Easy") (some (str "x = 1")) (str "python")))
      hintMarkers ∧
    countPre (str "Problem: ")
      (linesOf (buildDebugPrompt (str "python") none (str "y") (str "TypeError"))) = 0 := by
  obtain ⟨⟨a1, a2, a3⟩, b, ⟨c1, c2, c3⟩, d, e, ⟨f1, f2, f3, f4, f5⟩, g⟩ :=
    C9_prompt_sections (str "python") (str "Two Sum") (str "<p>Find two numbers.</p>")
      (str "return x") (str "beginner") [str "speed"] (str "5") [str "dp"] 3 1500
      (str "Two Sum") (str "<p>Find two numbers.</p>") (str "Easy") (str "x = 1")
      ⟨1, str "T2", str "d2", str "Hard"⟩ (str "y") (str "TypeError")
      (by unfold nlFree; decide) (by unfold nlFree; decide) (by unfold nlFree; decide)
      (by unfold nlFree; decide) (by unfold avoids; decide) (by unfold nlFree; decide)
      (by unfold nlFree; decide) (by unfold nlFree; decide) (by unfold nlFree; decide)
      (by unfold nlFree; decide) (by unfold nlFree; decide) (by unfold nlFree; decide)
      (by unfold nlFree; decide) (by decide) (by unfold avoids; decide)
      (by unfold nlFree; decide) (by unfold nlFree; decide) (by unfold nlFree; decide)
      (by unfold nlFree; decide) (by unfold avoids; decide)
  have hs : stripHtml (str "<p>Find two numbers.</p>") = str "Find two numbers." := by
    simp [stripHtml, str]
  rw [hs] at a1
  exact ⟨a1, c3, f3⟩
